import Mathlib

/-! Verification of activemq-cpp: command values, resource lifecycle manager and
CmsTemplate.

A shallow embedding of

* `src/main/activemq/commands/ConnectionId.cpp`
* `src/main/activemq/commands/ConsumerControl.cpp`
* `src/main/activemq/cmsutil/ResourceLifecycleManager.cpp`
* `src/main/activemq/cmsutil/CmsTemplate.cpp`

Heap objects owned by a command (`delete this->consumerId` in the destructor)
are embedded as values; a pointer argument is `Ptr`, which records whether
the argument is `NULL`, the receiver itself (`this == value`), or another
object.  Calls into collaborators (sessions, producers, pools, connections)
append an `Event` to a log and take their outcome from an `Env`.
-/

namespace activemq

/-! ## Exceptions -/

/-- Dynamic type of a thrown object, as far as the catch clauses of the sources
distinguish it.  `ActiveMQException` derives from `cms::CMSException`;
`IllegalStateException` and `NullPointerException` are the decaf exceptions and
do not; `CMSException` stands for an implementation of `cms::CMSException` that
is not an `ActiveMQException`; `foreign` is any other thrown object. -/
inductive ExcKind where
  | ActiveMQException
  | IllegalStateException
  | NullPointerException
  | CMSException
  | foreign
  deriving DecidableEq, Repr

/-- A stack mark, `(__FILE__, __LINE__)`. -/
abbrev Mark := String × Nat

/-- A thrown exception: its dynamic type, message and stack marks (oldest first). -/
structure Exc where
  kind : ExcKind
  message : String
  marks : List Mark
  deriving DecidableEq, Repr

/-- The call `e.setMark( file, line )`: appends one mark. -/
def Exc.setMark (e : Exc) (m : Mark) : Exc :=
  { e with marks := e.marks ++ [m] }

/-- The constructor `T( __FILE__, __LINE__, msg )`. -/
def Exc.new (k : ExcKind) (m : Mark) (msg : String) : Exc :=
  { kind := k, message := msg, marks := [m] }

/-- Whether `catch( ActiveMQException& )` matches. -/
def Exc.isActiveMQException (e : Exc) : Bool :=
  e.kind == ExcKind.ActiveMQException

/-- Whether `catch( IllegalStateException& )` matches. -/
def Exc.isIllegalStateException (e : Exc) : Bool :=
  e.kind == ExcKind.IllegalStateException

/-- Whether `catch( cms::CMSException& )` matches. -/
def Exc.isCMSException (e : Exc) : Bool :=
  e.kind == ExcKind.ActiveMQException || e.kind == ExcKind.CMSException

/-! ## Command values -/

namespace commands

/-- Modelled from the spec: the header every command carries through
`BaseCommand` (`BaseCommand.h` is not among the sources): the optional 32-bit
`commandId` and the `responseRequired` flag. -/
structure BaseCommand where
  commandId : Int
  responseRequired : Bool
  deriving DecidableEq, Repr

/-- Modelled from the spec: the identifier record `ConsumerId` (`ConsumerId.cpp`
is not among the sources), an id below a session below a connection. -/
structure ConsumerId where
  connectionId : String
  sessionId : Int
  value : Int
  deriving DecidableEq, Repr

/-- The members of `ConnectionId`. -/
structure ConnectionId where
  value : String
  deriving DecidableEq, Repr

/-- The members of `ConsumerControl`, with the inherited `BaseCommand` part. -/
structure ConsumerControl where
  base : BaseCommand
  close : Bool
  consumerId : Option ConsumerId
  prefetch : Int
  flush : Bool
  start : Bool
  stop : Bool
  deriving DecidableEq, Repr

/-- The objects a `const DataStructure*` can point to. -/
inductive DataStructure where
  | connectionId (c : ConnectionId)
  | consumerId (c : ConsumerId)
  | consumerControl (c : ConsumerControl)
  | unrelated (typeTag : Nat)
  deriving DecidableEq, Repr

/-- A pointer argument of a member function, relative to the receiver. -/
inductive Ptr where
  | null
  | self
  | obj (d : DataStructure)
  deriving DecidableEq, Repr

/-- The object a pointer refers to, given the receiver viewed as a
`DataStructure`. -/
def Ptr.deref (this : DataStructure) : Ptr → Option DataStructure
  | Ptr.null => none
  | Ptr.self => some this
  | Ptr.obj d => some d

/-- The cast `dynamic_cast<const ConnectionId*>`. -/
def DataStructure.asConnectionId : Option DataStructure → Option ConnectionId
  | some (DataStructure.connectionId c) => some c
  | _ => none

/-- The cast `dynamic_cast<const ConsumerId*>`. -/
def DataStructure.asConsumerId : Option DataStructure → Option ConsumerId
  | some (DataStructure.consumerId c) => some c
  | _ => none

/-- The cast `dynamic_cast<const ConsumerControl*>`. -/
def DataStructure.asConsumerControl : Option DataStructure → Option ConsumerControl
  | some (DataStructure.consumerControl c) => some c
  | _ => none

/-- The `BaseCommand` part of an object, when it is a command. -/
def DataStructure.asCommand : Option DataStructure → Option BaseCommand
  | some (DataStructure.consumerControl c) => some c.base
  | _ => none

/-- Modelled from the spec: `BaseDataStructure::equals` (`BaseDataStructure.h` is
not among the sources).  The base carries no field, so the structural
comparison of it succeeds. -/
def BaseDataStructure.equals (_value : Option DataStructure) : Bool :=
  true

/-- Modelled from the spec: `BaseCommand::equals` (`BaseCommand.h` is not among
the sources): structural comparison of the header fields, false on a null or a
non-command argument. -/
def BaseCommand.equals (this : BaseCommand) (value : Option DataStructure) : Bool :=
  match DataStructure.asCommand value with
  | none => false
  | some v => this.commandId == v.commandId && this.responseRequired == v.responseRequired

/-- Modelled from the spec: `BaseCommand::copyDataStructure` (`BaseCommand.h` is
not among the sources): copies the header fields of a command, and leaves the
receiver as it is for a null or non-command source. -/
def BaseCommand.copyDataStructure (this : BaseCommand) (src : Option DataStructure) :
    BaseCommand :=
  match DataStructure.asCommand src with
  | none => this
  | some v => { commandId := v.commandId, responseRequired := v.responseRequired }

/-! ### ConnectionId.cpp -/

/-- The constructor `ConnectionId::ConnectionId()`. -/
def ConnectionId.new : ConnectionId :=
  { value := "" }

/-- The function `ConnectionId::copyDataStructure( src )`: the outcome (a thrown
`NullPointerException`, if any) and the receiver afterwards. -/
def ConnectionId.copyDataStructure (this : ConnectionId) (src : Ptr) :
    Except Exc Unit × ConnectionId :=
  -- BaseDataStructure::copyDataStructure( src ) has no member to copy
  let srcPtr := DataStructure.asConnectionId (src.deref (DataStructure.connectionId this))
  match srcPtr with
  | none =>
    (Except.error (Exc.new ExcKind.NullPointerException ("ConnectionId.cpp", 69)
      "ConnectionId::copyDataStructure - src is NULL or invalid"), this)
  | some s => (Except.ok (), { this with value := s.value })

/-- The function `ConnectionId::cloneDataStructure()`. -/
def ConnectionId.cloneDataStructure (this : ConnectionId) : ConnectionId :=
  (ConnectionId.new.copyDataStructure (Ptr.obj (DataStructure.connectionId this))).2

/-- The function `ConnectionId::equals( value )`. -/
def ConnectionId.equals (this : ConnectionId) (value : Ptr) : Bool :=
  let target := value.deref (DataStructure.connectionId this)
  match DataStructure.asConnectionId target with
  | none => false
  | some v =>
    if this.value != v.value then false
    else if !BaseDataStructure.equals target then false
    else true

/-! ### ConsumerId (generated like ConnectionId) -/

/-- Modelled from the spec: `ConsumerId::equals` (`ConsumerId.cpp` is not among
the sources), the structural comparison generated for every identifier record,
after the pattern of `ConnectionId::equals`. -/
def ConsumerId.equals (this : ConsumerId) (value : Option DataStructure) : Bool :=
  match DataStructure.asConsumerId value with
  | none => false
  | some v =>
    if this.connectionId != v.connectionId then false
    else if this.sessionId != v.sessionId then false
    else if this.value != v.value then false
    else if !BaseDataStructure.equals value then false
    else true

/-- Modelled from the spec: `ConsumerId::cloneDataStructure` (`ConsumerId.cpp` is
not among the sources): a full deep copy of the record. -/
def ConsumerId.cloneDataStructure (this : ConsumerId) : ConsumerId :=
  { connectionId := this.connectionId, sessionId := this.sessionId, value := this.value }

/-! ### ConsumerControl.cpp -/

/-- The constructor `ConsumerControl::ConsumerControl()`; the inherited header
is what the base constructor left. -/
def ConsumerControl.new (base : BaseCommand) : ConsumerControl :=
  { base := base, close := false, consumerId := none, prefetch := 0,
    flush := false, start := false, stop := false }

/-- The function `ConsumerControl::copyDataStructure( src )`: the outcome (a thrown
`NullPointerException`, if any) and the receiver afterwards. -/
def ConsumerControl.copyDataStructure (this : ConsumerControl) (src : Ptr) :
    Except Exc Unit × ConsumerControl :=
  match src with
  | Ptr.self => (Except.ok (), this)       -- if( this == src ) return;
  | _ =>
    let target := src.deref (DataStructure.consumerControl this)
    let t1 := { this with base := this.base.copyDataStructure target }
    match DataStructure.asConsumerControl target with
    | none =>
      (Except.error (Exc.new ExcKind.NullPointerException ("ConsumerControl.cpp", 80)
        "ConsumerControl::copyDataStructure - src is NULL or invalid"), t1)
    | some srcPtr =>
      let t2 := { t1 with close := srcPtr.close }
      let t3 :=
        match srcPtr.consumerId with
        | some id => { t2 with consumerId := some id.cloneDataStructure }
        | none => t2
      let t4 := { t3 with prefetch := srcPtr.prefetch }
      let t5 := { t4 with flush := srcPtr.flush }
      let t6 := { t5 with start := srcPtr.start }
      (Except.ok (), { t6 with stop := srcPtr.stop })

/-- The function `ConsumerControl::cloneDataStructure()`; `base` is the header the
base constructor gives the new object. -/
def ConsumerControl.cloneDataStructure (this : ConsumerControl) (base : BaseCommand) :
    ConsumerControl :=
  ((ConsumerControl.new base).copyDataStructure
    (Ptr.obj (DataStructure.consumerControl this))).2

/-- The function `ConsumerControl::equals( value )`. -/
def ConsumerControl.equals (this : ConsumerControl) (value : Ptr) : Bool :=
  match value with
  | Ptr.self => true                       -- if( this == value ) return true;
  | _ =>
    let target := value.deref (DataStructure.consumerControl this)
    match DataStructure.asConsumerControl target with
    | none => false
    | some valuePtr =>
      if this.close != valuePtr.close then false
      else if
        (match this.consumerId with
         | some id => !id.equals (valuePtr.consumerId.map DataStructure.consumerId)
         | none => valuePtr.consumerId.isSome) then false
      else if this.prefetch != valuePtr.prefetch then false
      else if this.flush != valuePtr.flush then false
      else if this.start != valuePtr.start then false
      else if this.stop != valuePtr.stop then false
      else if !this.base.equals target then false
      else true

/-- The function `ConsumerControl::equals( value )` with the two callees whose
bodies are not among the sources, `ConsumerId::equals` and
`BaseCommand::equals`, taken as parameters. -/
def ConsumerControl.equalsWith (idEquals : ConsumerId → Option DataStructure → Bool)
    (baseEquals : BaseCommand → Option DataStructure → Bool)
    (this : ConsumerControl) (value : Ptr) : Bool :=
  match value with
  | Ptr.self => true                       -- if( this == value ) return true;
  | _ =>
    let target := value.deref (DataStructure.consumerControl this)
    match DataStructure.asConsumerControl target with
    | none => false
    | some valuePtr =>
      if this.close != valuePtr.close then false
      else if
        (match this.consumerId with
         | some id => !idEquals id (valuePtr.consumerId.map DataStructure.consumerId)
         | none => valuePtr.consumerId.isSome) then false
      else if this.prefetch != valuePtr.prefetch then false
      else if this.flush != valuePtr.flush then false
      else if this.start != valuePtr.start then false
      else if this.stop != valuePtr.stop then false
      else if !baseEquals this.base target then false
      else true

end commands


/-! ## Calls, effects and outcomes -/

/-- The categories of handles the resource lifecycle manager keeps. -/
inductive Kind where
  | producer
  | consumer
  | destination
  | session
  | connection
  deriving DecidableEq, Repr

/-- A session pool, identified by the arguments of `new SessionPool( connection,
ackMode, resourceLifecycleManager )`. -/
structure SessionPool where
  connection : Option Nat
  acknowledgeMode : Nat
  deriving DecidableEq, Repr

/-- The quality-of-service arguments of the four-argument `send`. -/
structure Qos where
  deliveryMode : Int
  priority : Int
  timeToLive : Int
  deriving DecidableEq, Repr

/-- A call into a collaborator, or a `delete`, in the order performed.  Handles
are numbers; a pointer that may be `NULL` is an `Option`. -/
inductive Event where
  | connectionClose (connection : Nat)
  | delete (kind : Kind) (handle : Nat)
  | deleteMessage (message : Nat)
  | accessorInit
  | createConnection
  | connectionStart (connection : Nat)
  | newSessionPool (pool : SessionPool)
  | deleteSessionPool (pool : SessionPool)
  | poolTakeSession (pool : SessionPool)
  | sessionClose (session : Nat)
  | resolveDestinationName (session : Option Nat) (name : String)
  | sessionCreateProducer (session : Nat) (dest : Option Nat)
  | setDisableMessageID (producer : Nat)
  | setDisableMessageTimeStamp (producer : Nat)
  | producerClose (producer : Nat)
  | producerSend (producer : Nat) (message : Option Nat) (qos : Option Qos)
  | sessionCreateConsumer (session : Nat) (dest : Option Nat) (selector : String)
      (noLocal : Bool)
  | consumerClose (consumer : Nat)
  | user (tag : Nat)
  deriving DecidableEq, Repr

/-- How a call ends: it returns, it throws, or the program leaves defined
behaviour (a member call through a null pointer, an index outside an array). -/
inductive Res (α : Type) where
  | ok (a : α)
  | raised (e : Exc)
  | fault
  deriving DecidableEq, Repr

/-- The object a member function runs on, with the log of calls made so far. -/
structure St (σ : Type) where
  obj : σ
  log : List Event
  deriving DecidableEq, Repr

/-- A member function of an object of type `σ` returning an `α`.  The state
reached when an exception leaves is kept, as in C++. -/
def M (σ α : Type) : Type :=
  St σ → Res α × St σ

namespace M

variable {σ α β : Type}

/-- Normal return. -/
def ret (a : α) : M σ α :=
  fun s => (Res.ok a, s)

/-- Sequencing: the second call runs only when the first returned. -/
def seq (m : M σ α) (f : α → M σ β) : M σ β :=
  fun s =>
    match m s with
    | (Res.ok a, s1) => f a s1
    | (Res.raised e, s1) => (Res.raised e, s1)
    | (Res.fault, s1) => (Res.fault, s1)

instance : Monad (M σ) where
  pure := ret
  bind := seq

/-- The statement `throw e`. -/
def raise (e : Exc) : M σ α :=
  fun s => (Res.raised e, s)

/-- Undefined behaviour. -/
def fault : M σ α :=
  fun s => (Res.fault, s)

/-- The block `try { body } catch ...`, the catch clauses given as one handler
that rethrows what no clause matches. -/
def tryCatch (body : M σ α) (handler : Exc → M σ α) : M σ α :=
  fun s =>
    match body s with
    | (Res.raised e, s1) => handler e s1
    | r => r

/-- Reads the object. -/
def getObj : M σ σ :=
  fun s => (Res.ok s.obj, s)

/-- Updates the object. -/
def modifyObj (f : σ → σ) : M σ Unit :=
  fun s => (Res.ok (), { s with obj := f s.obj })

/-- Records an event that cannot fail (a `delete`). -/
def emit (ev : Event) : M σ Unit :=
  fun s => (Res.ok (), { s with log := s.log ++ [ev] })

/-- A call into a collaborator: recorded, with the outcome the environment gives
it after the calls made so far. -/
def call (ev : Event) (outcome : List Event → Except Exc α) : M σ α :=
  fun s =>
    match outcome s.log with
    | Except.ok a => (Res.ok a, { s with log := s.log ++ [ev] })
    | Except.error e => (Res.raised e, { s with log := s.log ++ [ev] })

/-- A call of the object made from a function body that has local variables
of type `L`. -/
def inFrame {L : Type} (m : M σ α) : M (σ × L) α :=
  fun s =>
    match m { obj := s.obj.1, log := s.log } with
    | (r, s1) => (r, { obj := (s1.obj, s.obj.2), log := s1.log })

/-- A function body with local variables of type `L`, initialised to `init`. -/
def frame {L : Type} (init : L) (body : M (σ × L) α) : M σ α :=
  fun s =>
    match body { obj := (s.obj, init), log := s.log } with
    | (r, s1) => (r, { obj := s1.obj.1, log := s1.log })

/-- Reads the local variables. -/
def getLocal {L : Type} : M (σ × L) L :=
  fun s => (Res.ok s.obj.2, s)

/-- Assigns the local variables. -/
def setLocal {L : Type} (f : L → L) : M (σ × L) Unit :=
  fun s => (Res.ok (), { s with obj := (s.obj.1, f s.obj.2) })

/-- A call of a function `f( T& x )` that takes by reference the part `get l` of
the local variables; what the callee leaves in `x` is stored back through
`set`, also when the callee throws. -/
def byRef {L R : Type} (get : L → R) (set : L → R → L) (f : M (σ × R) α) :
    M (σ × L) α :=
  fun s =>
    match f { obj := (s.obj.1, get s.obj.2), log := s.log } with
    | (r, s1) => (r, { obj := (s1.obj.1, set s.obj.2 s1.obj.2), log := s1.log })

end M

/-- The collaborators that are outside the sources: what each call into them
does, given the log of the calls made before it. -/
structure Env where
  PERSISTENT : Int
  DEFAULT_PRIORITY : Int
  DEFAULT_TIME_TO_LIVE : Int
  RECEIVE_TIMEOUT_INDEFINITE_WAIT : Int
  NUM_SESSION_POOLS : Nat
  connectionClose : List Event → Nat → Except Exc Unit
  accessorInit : List Event → Except Exc Unit
  createConnection : List Event → Except Exc (Option Nat)
  connectionStart : List Event → Nat → Except Exc Unit
  poolTakeSession : List Event → SessionPool → Except Exc (Option Nat)
  sessionClose : List Event → Nat → Except Exc Unit
  resolveDestinationName : List Event → Option Nat → String → Except Exc (Option Nat)
  sessionCreateProducer : List Event → Nat → Option Nat → Except Exc (Option Nat)
  setDisableMessageID : List Event → Nat → Except Exc Unit
  setDisableMessageTimeStamp : List Event → Nat → Except Exc Unit
  producerClose : List Event → Nat → Except Exc Unit
  producerSend : List Event → Nat → Option Nat → Option Qos → Except Exc Unit
  sessionCreateConsumer : List Event → Nat → Option Nat → String → Bool →
    Except Exc (Option Nat)
  consumerClose : List Event → Nat → Except Exc Unit

/-- Modelled from the spec: the constants of the headers that are not among the
sources (priority 4, one pool per acknowledgement mode AUTO, CLIENT, DUPS_OK,
TRANSACTED), in an environment in which every call succeeds; creation calls
hand out the number of calls made so far as the new handle. -/
def Env.quiet : Env where
  PERSISTENT := 0
  DEFAULT_PRIORITY := 4
  DEFAULT_TIME_TO_LIVE := 0
  RECEIVE_TIMEOUT_INDEFINITE_WAIT := 0
  NUM_SESSION_POOLS := 4
  connectionClose := fun _ _ => Except.ok ()
  accessorInit := fun _ => Except.ok ()
  createConnection := fun log => Except.ok (some log.length)
  connectionStart := fun _ _ => Except.ok ()
  poolTakeSession := fun log _ => Except.ok (some log.length)
  sessionClose := fun _ _ => Except.ok ()
  resolveDestinationName := fun log _ _ => Except.ok (some log.length)
  sessionCreateProducer := fun log _ _ => Except.ok (some log.length)
  setDisableMessageID := fun _ _ => Except.ok ()
  setDisableMessageTimeStamp := fun _ _ => Except.ok ()
  producerClose := fun _ _ => Except.ok ()
  producerSend := fun _ _ _ _ => Except.ok ()
  sessionCreateConsumer := fun log _ _ _ _ => Except.ok (some log.length)
  consumerClose := fun _ _ => Except.ok ()

/-! ## ResourceLifecycleManager.cpp -/

namespace cmsutil

/-- The five vectors of `ResourceLifecycleManager`. -/
structure ResourceLifecycleManager where
  connections : List Nat
  sessions : List Nat
  destinations : List Nat
  producers : List Nat
  consumers : List Nat
  deriving DecidableEq, Repr

namespace ResourceLifecycleManager

/-- The constructor `ResourceLifecycleManager::ResourceLifecycleManager()`. -/
def new : ResourceLifecycleManager :=
  { connections := [], sessions := [], destinations := [], producers := [],
    consumers := [] }

/-- Modelled from the spec: the registration functions `addConnection`,
`addSession`, `addDestination`, `addMessageProducer`, `addMessageConsumer`
(declared in `ResourceLifecycleManager.h`, not among the sources):
`register(x, category)` records the handle at the end of the list of its
category. -/
def register (m : ResourceLifecycleManager) (k : Kind) (h : Nat) :
    ResourceLifecycleManager :=
  match k with
  | Kind.connection => { m with connections := m.connections ++ [h] }
  | Kind.session => { m with sessions := m.sessions ++ [h] }
  | Kind.destination => { m with destinations := m.destinations ++ [h] }
  | Kind.producer => { m with producers := m.producers ++ [h] }
  | Kind.consumer => { m with consumers := m.consumers ++ [h] }

/-- A sequence of registrations, first to last. -/
def registerAll (m : ResourceLifecycleManager) : List (Kind × Nat) → ResourceLifecycleManager
  | [] => m
  | (k, h) :: rest => registerAll (m.register k h) rest

/-- The function `ResourceLifecycleManager::releaseAll()`. -/
def releaseAll : M ResourceLifecycleManager Unit := do
  M.modifyObj (fun m => { m with connections := [] })
  M.modifyObj (fun m => { m with sessions := [] })
  M.modifyObj (fun m => { m with destinations := [] })
  M.modifyObj (fun m => { m with producers := [] })
  M.modifyObj (fun m => { m with consumers := [] })

/-- The loop `for ix: connections[ix]->close();` from index `ix` on. -/
def closeEach {σ : Type} (env : Env) : List Nat → M σ Unit
  | [] => pure ()
  | c :: rest => do
    M.call (Event.connectionClose c) (fun log => env.connectionClose log c)
    closeEach env rest

/-- The loop `for ix: delete xs[ix];` over the vector of one category. -/
def deleteEach {σ : Type} (k : Kind) : List Nat → M σ Unit
  | [] => pure ()
  | h :: rest => do
    M.emit (Event.delete k h)
    deleteEach k rest

/-- The function `ResourceLifecycleManager::destroy()`. -/
def destroy (env : Env) : M ResourceLifecycleManager Unit := do
  -- Close all the connections.
  closeEach env (← M.getObj).connections
  -- Destroy the producers.
  deleteEach Kind.producer (← M.getObj).producers
  -- Destroy the consumers.
  deleteEach Kind.consumer (← M.getObj).consumers
  -- Destroy the destinations.
  deleteEach Kind.destination (← M.getObj).destinations
  -- Destroy the sessions.
  deleteEach Kind.session (← M.getObj).sessions
  -- Destroy the connections,
  deleteEach Kind.connection (← M.getObj).connections
  -- Empty all the vectors.
  releaseAll

/-- The destructor `ResourceLifecycleManager::~ResourceLifecycleManager()`. -/
def destructor (env : Env) : M ResourceLifecycleManager Unit :=
  M.tryCatch (destroy env)
    (fun e => if e.isCMSException then pure () /- Absorb -/ else M.raise e)

end ResourceLifecycleManager

end cmsutil


/-! ## CmsTemplate.cpp -/

namespace cmsutil

/-- Modelled from the spec: the macros of `ExceptionDefines.h` (not among the
sources): `AMQ_CATCH_RETHROW( type )` catches the type, augments the exception
with the origin marker and rethrows it; other exceptions go to the next
clause. -/
def AMQ_CATCH_RETHROW {σ α : Type} (isType : Exc → Bool) (site : Mark)
    (next : Exc → M σ α) : Exc → M σ α :=
  fun ex => if isType ex then M.raise (ex.setMark site) else next ex

/-- Modelled from the spec: the macros of `ExceptionDefines.h` (not among the
sources): `AMQ_CATCH_EXCEPTION_CONVERT( source, target )` catches the source
type and throws a target built from it, marked with the origin. -/
def AMQ_CATCH_EXCEPTION_CONVERT {σ α : Type} (isSource : Exc → Bool) (target : ExcKind)
    (site : Mark) (next : Exc → M σ α) : Exc → M σ α :=
  fun ex =>
    if isSource ex then M.raise (Exc.setMark { ex with kind := target } site) else next ex

/-- Modelled from the spec: the macros of `ExceptionDefines.h` (not among the
sources): `AMQ_CATCHALL_THROW( type )` is `catch( ... )` throwing a new
exception of the type, created at the origin. -/
def AMQ_CATCHALL_THROW {σ α : Type} (target : ExcKind) (site : Mark) : Exc → M σ α :=
  fun _ => M.raise (Exc.new target site "caught unknown exception")

/-- Modelled from the spec: the macros of `ExceptionDefines.h` (not among the
sources): `AMQ_CATCH_NOTHROW( type )` catches the type and absorbs it. -/
def AMQ_CATCH_NOTHROW {σ : Type} (isType : Exc → Bool) (next : Exc → M σ Unit) :
    Exc → M σ Unit :=
  fun ex => if isType ex then pure () else next ex

/-- The members of `CmsTemplate`: those its own functions assign, and of the
base classes `CmsAccessor` and `CmsDestinationAccessor` the connection factory
set through `setConnectionFactory()` and the acknowledge mode read through
`getSessionAcknowledgeMode()`.  The array `sessionPools` has
`NUM_SESSION_POOLS` slots. -/
structure CmsTemplate where
  connectionFactory : Option Nat
  sessionAcknowledgeMode : Nat
  connection : Option Nat
  sessionPools : List (Option SessionPool)
  defaultDestination : Option Nat
  defaultDestinationName : String
  messageIdEnabled : Bool
  messageTimestampEnabled : Bool
  noLocal : Bool
  receiveTimeout : Int
  explicitQosEnabled : Bool
  deliveryMode : Int
  priority : Int
  timeToLive : Int
  deriving DecidableEq, Repr

/-- The interface `SessionCallback`: `doInCms( session )`. -/
abbrev SessionCallback := Option Nat → M CmsTemplate Unit

/-- The interface `ProducerCallback`: `doInCms( session, producer )`. -/
abbrev ProducerCallback := Option Nat → Option Nat → M CmsTemplate Unit

/-- The interface `MessageCreator`: `createMessage( session )`. -/
abbrev MessageCreator := Option Nat → M CmsTemplate (Option Nat)

namespace CmsTemplate

/-- The value of `__FILE__` in `CmsTemplate.cpp`. -/
def file : String := "CmsTemplate.cpp"

/-- The function `CmsTemplate::initDefaults()`. -/
def initDefaults (env : Env) : M CmsTemplate Unit := do
  M.modifyObj (fun t => { t with defaultDestination := none })
  M.modifyObj (fun t => { t with defaultDestinationName := "" })
  M.modifyObj (fun t => { t with messageIdEnabled := true })
  M.modifyObj (fun t => { t with messageTimestampEnabled := true })
  M.modifyObj (fun t => { t with noLocal := false })
  M.modifyObj (fun t => { t with receiveTimeout := env.RECEIVE_TIMEOUT_INDEFINITE_WAIT })
  M.modifyObj (fun t => { t with explicitQosEnabled := false })
  M.modifyObj (fun t => { t with deliveryMode := env.PERSISTENT })
  M.modifyObj (fun t => { t with priority := env.DEFAULT_PRIORITY })
  M.modifyObj (fun t => { t with timeToLive := env.DEFAULT_TIME_TO_LIVE })

/-- Modelled from the spec: `CmsAccessor::setConnectionFactory` (declared in
`CmsAccessor.h`, not among the sources): stores the factory the template creates
its connection from. -/
def setConnectionFactory (connectionFactory : Option Nat) : M CmsTemplate Unit :=
  M.modifyObj (fun t => { t with connectionFactory := connectionFactory })

/-- The constructor `CmsTemplate::CmsTemplate()`, run on the members as the
allocation left them. -/
def construct (env : Env) : M CmsTemplate Unit :=
  initDefaults env

/-- The constructor `CmsTemplate::CmsTemplate( connectionFactory )`, run on the
members as the allocation left them. -/
def constructWith (env : Env) (connectionFactory : Option Nat) : M CmsTemplate Unit := do
  initDefaults env
  setConnectionFactory connectionFactory

/-- The loop of `destroySessionPools` over the indices `ixs`. -/
def destroySessionPoolsLoop : List Nat → M CmsTemplate Unit
  | [] => pure ()
  | ix :: rest => do
    match (← M.getObj).sessionPools.get? ix with
    | some (some pool) =>
      M.emit (Event.deleteSessionPool pool)
      M.modifyObj (fun t => { t with sessionPools := t.sessionPools.set ix none })
    | _ => pure ()
    destroySessionPoolsLoop rest

/-- The function `CmsTemplate::destroySessionPools()`. -/
def destroySessionPools (env : Env) : M CmsTemplate Unit :=
  destroySessionPoolsLoop (List.range env.NUM_SESSION_POOLS)

/-- The loop of `createSessionPools` over the indices `ixs`. -/
def createSessionPoolsLoop : List Nat → M CmsTemplate Unit
  | [] => pure ()
  | ix :: rest => do
    let pool : SessionPool :=
      { connection := (← M.getObj).connection, acknowledgeMode := ix }
    M.emit (Event.newSessionPool pool)
    M.modifyObj (fun t => { t with sessionPools := t.sessionPools.set ix (some pool) })
    createSessionPoolsLoop rest

/-- The function `CmsTemplate::createSessionPools()`. -/
def createSessionPools (env : Env) : M CmsTemplate Unit := do
  -- Make sure they're destroyed first.
  destroySessionPools env
  createSessionPoolsLoop (List.range env.NUM_SESSION_POOLS)

/-- The function `CmsTemplate::checkDefaultDestination()`. -/
def checkDefaultDestination : M CmsTemplate Unit := do
  let t ← M.getObj
  if t.defaultDestination == none && t.defaultDestinationName.length == 0 then
    M.raise (Exc.new ExcKind.IllegalStateException (file, 109)
      "No defaultDestination or defaultDestinationName specified. Check configuration of CmsTemplate.")
  else
    pure ()

/-- The function `CmsTemplate::init()`. -/
def init (env : Env) : M CmsTemplate Unit :=
  M.tryCatch
    (do
      -- Invoke the base class.
      M.call Event.accessorInit env.accessorInit
      -- Make sure we have a valid default destination.
      checkDefaultDestination)
    (AMQ_CATCH_RETHROW Exc.isActiveMQException (file, 100) <|
     AMQ_CATCH_RETHROW Exc.isIllegalStateException (file, 101) <|
     AMQ_CATCHALL_THROW ExcKind.ActiveMQException (file, 102))

/-- The call `resolveDestinationName( session, name )` of the base class
`CmsDestinationAccessor`. -/
def resolveDestinationName (env : Env) (session : Option Nat) (name : String) :
    M CmsTemplate (Option Nat) :=
  M.call (Event.resolveDestinationName session name)
    (fun log => env.resolveDestinationName log session name)

/-- The function `CmsTemplate::resolveDefaultDestination( session )`. -/
def resolveDefaultDestination (env : Env) (session : Option Nat) :
    M CmsTemplate (Option Nat) :=
  M.tryCatch
    (do
      -- Make sure we have a default - otherwise throw.
      checkDefaultDestination
      -- First, check the destination object.
      let dest := (← M.getObj).defaultDestination
      match dest with
      | none =>
        let dest ← resolveDestinationName env session (← M.getObj).defaultDestinationName
        M.modifyObj (fun t => { t with defaultDestination := dest })
        pure dest
      | some d => pure (some d))
    (AMQ_CATCH_RETHROW Exc.isActiveMQException (file, 136) <|
     AMQ_CATCH_RETHROW Exc.isIllegalStateException (file, 137) <|
     M.raise)

/-- The function `CmsTemplate::getConnection()`. -/
def getConnection (env : Env) : M CmsTemplate (Option Nat) :=
  M.tryCatch
    (do
      -- If we don't have a connection, create one.
      if (← M.getObj).connection == none then
        let c ← M.call Event.createConnection env.createConnection
        M.modifyObj (fun t => { t with connection := c })
        -- Start the connection.
        match (← M.getObj).connection with
        | none => M.fault
        | some conn => M.call (Event.connectionStart conn) (fun log => env.connectionStart log conn)
        -- Create the session pools, passing in this connection.
        createSessionPools env
      pure (← M.getObj).connection)
    (AMQ_CATCH_RETHROW Exc.isActiveMQException (file, 162) <|
     AMQ_CATCHALL_THROW ExcKind.ActiveMQException (file, 163))

/-- The function `CmsTemplate::takeSession()`. -/
def takeSession (env : Env) : M CmsTemplate (Option Nat) :=
  M.tryCatch
    (do
      -- Take a session from the pool.
      let t ← M.getObj
      match t.sessionPools.get? t.sessionAcknowledgeMode with
      | some (some pool) =>
        M.call (Event.poolTakeSession pool) (fun log => env.poolTakeSession log pool)
      | _ => M.fault)
    (AMQ_CATCH_RETHROW Exc.isActiveMQException (file, 175) <|
     AMQ_CATCHALL_THROW ExcKind.ActiveMQException (file, 176))

/-- The function `CmsTemplate::returnSession( session )`; the local variable of
the frame is the `PooledSession*&` argument. -/
def returnSession (env : Env) : M (CmsTemplate × Option Nat) Unit :=
  M.tryCatch
    (do
      match (← M.getLocal) with
      | none => pure ()
      | some session =>
        -- Close the session, but do not delete since it's a pooled session
        M.call (Event.sessionClose session) (fun log => env.sessionClose log session)
        M.setLocal (fun _ => none))
    (AMQ_CATCH_RETHROW Exc.isActiveMQException (file, 193) <|
     AMQ_CATCHALL_THROW ExcKind.ActiveMQException (file, 194))

/-- The function `CmsTemplate::createProducer( session, dest )`. -/
def createProducer (env : Env) (session : Option Nat) (dest : Option Nat) :
    M CmsTemplate (Option Nat) :=
  M.tryCatch
    (do
      -- If no destination was provided, resolve the default.
      let dest ← (match dest with
        | none => resolveDefaultDestination env session
        | some d => pure (some d))
      let producer ← (match session with
        | none => M.fault
        | some s =>
          M.call (Event.sessionCreateProducer s dest)
            (fun log => env.sessionCreateProducer log s dest))
      if !(← M.getObj).messageIdEnabled then
        match producer with
        | none => M.fault
        | some p => M.call (Event.setDisableMessageID p) (fun log => env.setDisableMessageID log p)
      if !(← M.getObj).messageTimestampEnabled then
        match producer with
        | none => M.fault
        | some p =>
          M.call (Event.setDisableMessageTimeStamp p)
            (fun log => env.setDisableMessageTimeStamp log p)
      pure producer)
    (AMQ_CATCH_RETHROW Exc.isActiveMQException (file, 218) <|
     AMQ_CATCH_EXCEPTION_CONVERT Exc.isIllegalStateException ExcKind.ActiveMQException
       (file, 219) <|
     AMQ_CATCHALL_THROW ExcKind.ActiveMQException (file, 220))

/-- The function `CmsTemplate::destroyProducer( producer )`; the local variable
of the frame is the `cms::MessageProducer*&` argument. -/
def destroyProducer (env : Env) : M (CmsTemplate × Option Nat) Unit := do
  match (← M.getLocal) with
  | none => pure ()
  | some producer =>
    M.tryCatch
      -- Close the producer, then destroy it.
      (M.call (Event.producerClose producer) (fun log => env.producerClose log producer))
      (AMQ_CATCH_NOTHROW Exc.isCMSException M.raise)
    M.emit (Event.delete Kind.producer producer)
    M.setLocal (fun _ => none)

/-- The function `CmsTemplate::createConsumer( session, dest, messageSelector )`. -/
def createConsumer (env : Env) (session : Option Nat) (dest : Option Nat)
    (messageSelector : String) : M CmsTemplate (Option Nat) :=
  M.tryCatch
    (do
      let noLocal := (← M.getObj).noLocal
      match session with
      | none => M.fault
      | some s =>
        M.call (Event.sessionCreateConsumer s dest messageSelector noLocal)
          (fun log => env.sessionCreateConsumer log s dest messageSelector noLocal))
    (AMQ_CATCH_RETHROW Exc.isActiveMQException (file, 254) <| M.raise)

/-- The function `CmsTemplate::destroyConsumer( consumer )`; the local variable
of the frame is the `cms::MessageConsumer*&` argument. -/
def destroyConsumer (env : Env) : M (CmsTemplate × Option Nat) Unit := do
  match (← M.getLocal) with
  | none => pure ()
  | some consumer =>
    M.tryCatch
      -- Close the consumer, then destroy it.
      (M.call (Event.consumerClose consumer) (fun log => env.consumerClose log consumer))
      (AMQ_CATCH_NOTHROW Exc.isCMSException M.raise)
    M.emit (Event.delete Kind.consumer consumer)
    M.setLocal (fun _ => none)

/-- The function `CmsTemplate::destroyMessage( message )`; the local variable of
the frame is the `cms::Message*&` argument. -/
def destroyMessage : M (CmsTemplate × Option Nat) Unit := do
  match (← M.getLocal) with
  | none => pure ()
  | some message =>
    -- Destroy the message.
    M.emit (Event.deleteMessage message)
    M.setLocal (fun _ => none)

/-- The function `CmsTemplate::execute( SessionCallback* action )`; the local
variable of the frame is `pooledSession`. -/
def execute (env : Env) (action : Option SessionCallback) : M CmsTemplate Unit :=
  M.frame (none : Option Nat) <|
    M.tryCatch
      (match action with
       | none => pure ()
       | some doInCms => do
         -- Take a session from the pool.
         let s ← M.inFrame (takeSession env)
         M.setLocal (fun _ => s)
         -- Execute the action with the given session.
         M.inFrame (doInCms (← M.getLocal))
         -- Return the session to the pool.
         M.byRef id (fun _ r => r) (returnSession env))
      (fun e =>
        if e.isActiveMQException then do
          let e := e.setMark (file, 310)
          -- Return the session to the pool.
          M.byRef id (fun _ r => r) (returnSession env)
          M.raise e
        else M.raise e)

/-- The function `CmsTemplate::ProducerSessionCallback::doInCms( session )`, for
the callback built by `ProducerSessionCallback cb( action, this )`; the local
variable of the frame is `producer`. -/
def ProducerSessionCallback.doInCms (env : Env) (action : Option ProducerCallback)
    (session : Option Nat) : M CmsTemplate Unit :=
  M.frame (none : Option Nat) <|
    M.tryCatch
      (match session with
       | none => pure ()
       | some _ => do
         -- Create the producer.
         let p ← M.inFrame (createProducer env session none)
         M.setLocal (fun _ => p)
         -- Execute the action.
         match action with
         | none => M.fault
         | some doInCms => M.inFrame (doInCms session (← M.getLocal))
         -- Destroy the producer.
         M.byRef id (fun _ r => r) (destroyProducer env))
      (fun e =>
        if e.isActiveMQException then do
          let e := e.setMark (file, 357)
          -- Destroy the producer.
          M.byRef id (fun _ r => r) (destroyProducer env)
          M.raise e
        else M.raise e)

/-- The function `CmsTemplate::execute( ProducerCallback* action )`. -/
def executeProducer (env : Env) (action : Option ProducerCallback) : M CmsTemplate Unit :=
  M.tryCatch
    -- Create the callback, execute the action in a session.
    (execute env (some (ProducerSessionCallback.doInCms env action)))
    (AMQ_CATCH_RETHROW Exc.isActiveMQException (file, 330) <|
     AMQ_CATCHALL_THROW ExcKind.ActiveMQException (file, 331))

/-- The function `CmsTemplate::doSend( session, dest, messageCreator )`; the local
variables of the frame are `producer` and `message`. -/
def doSend (env : Env) (session : Option Nat) (dest : Option Nat)
    (messageCreator : Option MessageCreator) : M CmsTemplate Unit :=
  M.frame ((none, none) : Option Nat × Option Nat) <|
    M.tryCatch
      (if session == none || dest == none then pure ()
       else do
         -- Create the producer.
         let p ← M.inFrame (createProducer env session dest)
         M.setLocal (fun l => (p, l.2))
         -- Create the message.
         let m ← (match messageCreator with
           | none => M.fault
           | some createMessage => M.inFrame (createMessage session))
         M.setLocal (fun l => (l.1, m))
         -- Send the message.
         let t ← M.inFrame M.getObj
         let l ← M.getLocal
         match l.1 with
         | none => M.fault
         | some producer =>
           if t.explicitQosEnabled then
             let qos : Qos :=
               { deliveryMode := t.deliveryMode, priority := t.priority,
                 timeToLive := t.timeToLive }
             M.call (Event.producerSend producer l.2 (some qos))
               (fun log => env.producerSend log producer l.2 (some qos))
           else
             M.call (Event.producerSend producer l.2 none)
               (fun log => env.producerSend log producer l.2 none)
         -- Destroy the resources.
         M.byRef Prod.fst (fun l r => (r, l.2)) (destroyProducer env)
         M.byRef Prod.snd (fun l r => (l.1, r)) destroyMessage)
      (fun e =>
        if e.isActiveMQException then do
          let e := e.setMark (file, 443)
          -- Destroy the resources.
          M.byRef Prod.fst (fun l r => (r, l.2)) (destroyProducer env)
          M.byRef Prod.snd (fun l r => (l.1, r)) destroyMessage
          M.raise e
        else M.raise e)

/-- Modelled from the spec: `CmsTemplate::Sender::doInCms( session )` (defined in
`CmsTemplate.h`, not among the sources): sends to the destination the sender
was built with. -/
def Sender.doInCms (env : Env) (dest : Option Nat) (messageCreator : Option MessageCreator)
    (session : Option Nat) : M CmsTemplate Unit :=
  doSend env session dest messageCreator

/-- The function `CmsTemplate::ResolveSender::doInCms( session )`. -/
def ResolveSender.doInCms (env : Env) (destinationName : String)
    (messageCreator : Option MessageCreator) (session : Option Nat) : M CmsTemplate Unit :=
  M.tryCatch
    (do
      let dest ← resolveDestinationName env session destinationName
      doSend env session dest messageCreator)
    (AMQ_CATCH_RETHROW Exc.isActiveMQException (file, 461) <|
     AMQ_CATCH_EXCEPTION_CONVERT Exc.isIllegalStateException ExcKind.ActiveMQException
       (file, 462) <|
     AMQ_CATCHALL_THROW ExcKind.ActiveMQException (file, 463))

/-- The function `CmsTemplate::send( cms::Destination* dest, messageCreator )`. -/
def sendTo (env : Env) (dest : Option Nat) (messageCreator : Option MessageCreator) :
    M CmsTemplate Unit :=
  M.tryCatch
    (execute env (some (Sender.doInCms env dest messageCreator)))
    (AMQ_CATCH_RETHROW Exc.isActiveMQException (file, 394) <|
     AMQ_CATCHALL_THROW ExcKind.ActiveMQException (file, 395))

/-- The function `CmsTemplate::send( const std::string& destinationName,
messageCreator )`. -/
def sendToName (env : Env) (destinationName : String)
    (messageCreator : Option MessageCreator) : M CmsTemplate Unit :=
  M.tryCatch
    (execute env (some (ResolveSender.doInCms env destinationName messageCreator)))
    (AMQ_CATCH_RETHROW Exc.isActiveMQException (file, 407) <|
     AMQ_CATCHALL_THROW ExcKind.ActiveMQException (file, 408))

/-- The function `CmsTemplate::send( MessageCreator* messageCreator )`. -/
def send (env : Env) (messageCreator : Option MessageCreator) : M CmsTemplate Unit :=
  M.tryCatch
    (do
      checkDefaultDestination
      match (← M.getObj).defaultDestination with
      | some d => sendTo env (some d) messageCreator
      | none => sendToName env (← M.getObj).defaultDestinationName messageCreator)
    (AMQ_CATCH_RETHROW Exc.isActiveMQException (file, 380) <|
     AMQ_CATCH_RETHROW Exc.isIllegalStateException (file, 381) <|
     AMQ_CATCHALL_THROW ExcKind.ActiveMQException (file, 382))

end CmsTemplate

end cmsutil

/-! ## Observations on a log, and concrete inputs -/

/-- The deletions a sequence of events performs, in order. -/
def deletions : List Event → List (Kind × Nat)
  | [] => []
  | Event.delete k h :: rest => (k, h) :: deletions rest
  | _ :: rest => deletions rest

/-- The `send` calls a sequence of events makes, in order: the producer, the
message and the quality of service passed (`none` for the one-argument form). -/
def sends : List Event → List (Nat × Option Nat × Option Qos)
  | [] => []
  | Event.producerSend p m q :: rest => (p, m, q) :: sends rest
  | _ :: rest => sends rest

/-- Position of a category in the order producers, consumers, destinations,
sessions, connections. -/
def Kind.rank : Kind → Nat
  | Kind.producer => 0
  | Kind.consumer => 1
  | Kind.destination => 2
  | Kind.session => 3
  | Kind.connection => 4

/-- The deletions of one full sweep of `destroy` over a manager, in the order of
the five loops. -/
def cmsutil.ResourceLifecycleManager.sweep (m : cmsutil.ResourceLifecycleManager) :
    List (Kind × Nat) :=
  m.producers.map (Prod.mk Kind.producer) ++ m.consumers.map (Prod.mk Kind.consumer) ++
    m.destinations.map (Prod.mk Kind.destination) ++ m.sessions.map (Prod.mk Kind.session) ++
    m.connections.map (Prod.mk Kind.connection)

/-- The `delete` events of one full sweep of `destroy` over a manager. -/
def cmsutil.ResourceLifecycleManager.sweepEvents (m : cmsutil.ResourceLifecycleManager) :
    List Event :=
  m.sweep.map (fun p => Event.delete p.1 p.2)

/-- An exception thrown by a failing `close()`. -/
def closeError : Exc :=
  { kind := ExcKind.CMSException, message := "close failed", marks := [] }

/-- An environment in which `close()` of connection `bad` fails and every other
call succeeds. -/
def Env.closeFails (bad : Nat) : Env :=
  { Env.quiet with
    connectionClose := fun _ c => if c = bad then Except.error closeError else Except.ok () }

/-- A manager with connections 1, 2, 3, producer 10, consumer 11, destination 12
and session 20 registered. -/
def cmsutil.ResourceLifecycleManager.sample : cmsutil.ResourceLifecycleManager :=
  cmsutil.ResourceLifecycleManager.registerAll cmsutil.ResourceLifecycleManager.new
    [(Kind.connection, 1), (Kind.session, 20), (Kind.destination, 12), (Kind.producer, 10),
     (Kind.consumer, 11), (Kind.connection, 2), (Kind.connection, 3)]

/-- A template after `getConnection()`: connection 0, one pool per acknowledge
mode, acknowledge mode 0, and the given default destination and name. -/
def cmsutil.CmsTemplate.sample (dest : Option Nat) (name : String) : cmsutil.CmsTemplate :=
  { connectionFactory := some 0, sessionAcknowledgeMode := 0, connection := some 0,
    sessionPools := [some ⟨some 0, 0⟩, some ⟨some 0, 1⟩, some ⟨some 0, 2⟩, some ⟨some 0, 3⟩],
    defaultDestination := dest, defaultDestinationName := name,
    messageIdEnabled := true, messageTimestampEnabled := true, noLocal := false,
    receiveTimeout := 0, explicitQosEnabled := false, deliveryMode := 0, priority := 4,
    timeToLive := 0 }

/-- An exception that implements `cms::CMSException` without deriving from
`ActiveMQException`, as a user callback may throw. -/
def callbackError : Exc :=
  { kind := ExcKind.CMSException, message := "callback failed", marks := [] }

/-- A `SessionCallback` whose `doInCms` does some work and throws `callbackError`. -/
def throwingSessionCallback : cmsutil.SessionCallback :=
  fun _ => do
    M.emit (Event.user 1)
    M.raise callbackError

/-- A `ProducerCallback` whose `doInCms` does some work and throws `callbackError`. -/
def throwingProducerCallback : cmsutil.ProducerCallback :=
  fun _ _ => do
    M.emit (Event.user 1)
    M.raise callbackError

/-- A `MessageCreator` whose `createMessage` does some work and throws
`callbackError`. -/
def throwingMessageCreator : cmsutil.MessageCreator :=
  fun _ => do
    M.emit (Event.user 2)
    M.raise callbackError

/-- An `ActiveMQException` thrown by a user callback, already carrying one mark. -/
def activeMQError : Exc :=
  { kind := ExcKind.ActiveMQException, message := "broker said no",
    marks := [("Callback.cpp", 7)] }

/-- A `SessionCallback` whose `doInCms` throws `activeMQError`. -/
def activeMQSessionCallback : cmsutil.SessionCallback :=
  fun _ => M.raise activeMQError

/-- A `ProducerCallback` whose `doInCms` returns at once. -/
def idleProducerCallback : cmsutil.ProducerCallback :=
  fun _ _ => pure ()

/-- An environment in which `close()` of every session fails and every other
call succeeds. -/
def Env.sessionCloseFails : Env :=
  { Env.quiet with sessionClose := fun _ _ => Except.error closeError }

/-- An environment in which `close()` of every session raises the
`ActiveMQException` `activeMQError` and every other call succeeds. -/
def Env.sessionCloseRaisesActiveMQ : Env :=
  { Env.quiet with sessionClose := fun _ _ => Except.error activeMQError }

/-- An environment in which `start()` of every connection raises the
`ActiveMQException` `activeMQError` and every other call succeeds. -/
def Env.startFails : Env :=
  { Env.quiet with connectionStart := fun _ _ => Except.error activeMQError }

/-- A template as constructed, before any connection: no connection and four
empty pool slots. -/
def cmsutil.CmsTemplate.unconnected : cmsutil.CmsTemplate :=
  { cmsutil.CmsTemplate.sample none "q" with
    connection := none, sessionPools := [none, none, none, none] }

/-- A `SessionCallback` whose `doInCms` does some work and returns. -/
def returningSessionCallback : cmsutil.SessionCallback :=
  fun _ => M.emit (Event.user 3)

end activemq

/-! # Theorems -/

namespace activemq

open commands cmsutil

/-! ## Command values -/

/-- The structural comparison of `ConsumerId` accepts a clone of the receiver. -/
theorem ConsumerId_equals_clone (id : ConsumerId) :
    id.cloneDataStructure.equals (some (DataStructure.consumerId id)) = true := by
  simp [ConsumerId.equals, ConsumerId.cloneDataStructure, DataStructure.asConsumerId,
    BaseDataStructure.equals]

/-- C7: for every `ConsumerControl` `c` (any field values, `consumerId` null or
not, any header) and whatever header the base constructor gives the new object,
`c.cloneDataStructure()` is a distinct object that equals `c`:
`clone(c).equals(c)` is true. -/
theorem C7_clone_equals (c : ConsumerControl) (base : BaseCommand) :
    (c.cloneDataStructure base).equals (Ptr.obj (DataStructure.consumerControl c)) = true := by
  rcases c with ⟨b, cl, id, pf, fl, st, sp⟩
  cases id <;>
    simp [ConsumerControl.cloneDataStructure, ConsumerControl.copyDataStructure,
      ConsumerControl.new, ConsumerControl.equals, Ptr.deref, DataStructure.asConsumerControl,
      BaseCommand.copyDataStructure, BaseCommand.equals, DataStructure.asCommand,
      ConsumerId.equals, ConsumerId.cloneDataStructure, DataStructure.asConsumerId,
      BaseDataStructure.equals]

/-- C8: evaluation of `copyDataStructure` at the failing input.  The target holds
a `consumerId`, the source is a freshly constructed `ConsumerControl` (null
`consumerId`): the copy returns normally, the target keeps its old
`consumerId`, and the target does not equal the source afterwards. -/
theorem C8_copy_keeps_stale_consumerId :
    let dst : ConsumerControl :=
      { base := { commandId := 0, responseRequired := false }, close := false,
        consumerId := some { connectionId := "c", sessionId := 1, value := 2 },
        prefetch := 0, flush := false, start := false, stop := false }
    let src : ConsumerControl :=
      ConsumerControl.new { commandId := 0, responseRequired := false }
    let r := dst.copyDataStructure (Ptr.obj (DataStructure.consumerControl src))
    r.1 = Except.ok () ∧
    src.consumerId = none ∧
    r.2.consumerId = some { connectionId := "c", sessionId := 1, value := 2 } ∧
    r.2.equals (Ptr.obj (DataStructure.consumerControl src)) = false := by
  intro dst src r
  exact ⟨rfl, rfl, rfl, rfl⟩

/-- C9: `ConsumerControl::equals` returns false whenever exactly one of the two
compared commands has a null `consumerId`, whichever of the two holds the null
and whatever the other fields are. -/
theorem C9_equals_null_vs_nonnull (a b : ConsumerControl)
    (h : a.consumerId.isSome ≠ b.consumerId.isSome) :
    a.equals (Ptr.obj (DataStructure.consumerControl b)) = false := by
  rcases a with ⟨ab, acl, aid, apf, afl, ast, asp⟩
  rcases b with ⟨bb, bcl, bid, bpf, bfl, bst, bsp⟩
  cases aid <;> cases bid <;>
    simp_all [ConsumerControl.equals, Ptr.deref, DataStructure.asConsumerControl,
      ConsumerId.equals, DataStructure.asConsumerId]

/-- Witness of C9 in both directions: the receiver holds the null, and the
argument holds the null, all other fields agreeing. -/
theorem C9_equals_null_vs_nonnull_witness :
    (ConsumerControl.new ⟨0, false⟩).equals
        (Ptr.obj (DataStructure.consumerControl
          { ConsumerControl.new ⟨0, false⟩ with consumerId := some ⟨"c", 1, 2⟩ })) = false ∧
    ({ ConsumerControl.new ⟨0, false⟩ with consumerId := some ⟨"c", 1, 2⟩ } :
        ConsumerControl).equals
        (Ptr.obj (DataStructure.consumerControl (ConsumerControl.new ⟨0, false⟩))) = false :=
  ⟨C9_equals_null_vs_nonnull _ _ (by decide), C9_equals_null_vs_nonnull _ _ (by decide)⟩

/-- C10: `ConnectionId` equality is structural.  For every two `ConnectionId`
values `a` and `b`, `a.equals(b)` is true exactly when the value strings are
equal (and `a.equals(a)` is true); `a.equals(x)` is false when `x` is null or a
data structure of another type. -/
theorem C10_ConnectionId_equals_structural (a : ConnectionId) :
    (∀ b : ConnectionId,
      (a.equals (Ptr.obj (DataStructure.connectionId b)) = true ↔ a.value = b.value)) ∧
    a.equals Ptr.self = true ∧
    a.equals Ptr.null = false ∧
    (∀ x : ConsumerId, a.equals (Ptr.obj (DataStructure.consumerId x)) = false) ∧
    (∀ x : ConsumerControl, a.equals (Ptr.obj (DataStructure.consumerControl x)) = false) ∧
    (∀ t : Nat, a.equals (Ptr.obj (DataStructure.unrelated t)) = false) := by
  refine ⟨fun b => ?_, ?_, ?_, fun x => ?_, fun x => ?_, fun t => ?_⟩ <;>
    simp [ConnectionId.equals, Ptr.deref, DataStructure.asConnectionId,
      BaseDataStructure.equals]


/-! ## Call sequencing -/

/-- Sequencing in `M` is `M.seq`. -/
theorem M.bind_apply {σ α β : Type} (m : M σ α) (f : α → M σ β) (s : St σ) :
    (m >>= f) s = M.seq m f s := rfl

/-- A normal return leaves the state as it is. -/
theorem M.pure_apply {σ α : Type} (a : α) (s : St σ) :
    (pure a : M σ α) s = (Res.ok a, s) := rfl

/-! ## ResourceLifecycleManager -/

/-- A delete loop never fails and logs one `delete` per element, in order. -/
theorem deleteEach_apply {σ : Type} (k : Kind) (hs : List Nat) (s : St σ) :
    ResourceLifecycleManager.deleteEach k hs s =
      (Res.ok (), { s with log := s.log ++ hs.map (Event.delete k) }) := by
  induction hs generalizing s with
  | nil => simp [ResourceLifecycleManager.deleteEach, M.pure_apply]
  | cons h rest ih =>
    simp [ResourceLifecycleManager.deleteEach, M.bind_apply, M.seq, M.emit, ih]

/-- When the first failing `close()` is that of `c`, the loop stops there. -/
theorem closeEach_fail {σ : Type} (env : Env) (pre : List Nat) (c : Nat) (post : List Nat)
    (e : Exc) (s : St σ)
    (hpre : ∀ p1 x p2, pre = p1 ++ x :: p2 →
      env.connectionClose (s.log ++ p1.map Event.connectionClose) x = Except.ok ())
    (hc : env.connectionClose (s.log ++ pre.map Event.connectionClose) c = Except.error e) :
    ResourceLifecycleManager.closeEach env (pre ++ c :: post) s =
      (Res.raised e,
        { s with
          log := s.log ++ pre.map Event.connectionClose ++ [Event.connectionClose c] }) := by
  induction pre generalizing s with
  | nil =>
    simp at hc
    simp [ResourceLifecycleManager.closeEach, M.bind_apply, M.seq, M.call, hc]
  | cons p rest ih =>
    have h0 := hpre [] p rest rfl
    simp at h0
    have ih1 := ih { s with log := s.log ++ [Event.connectionClose p] } (by
      intro p1 x p2 hx
      have := hpre (p :: p1) x p2 (by simp [hx])
      simpa using this) (by simpa using hc)
    simp [ResourceLifecycleManager.closeEach, M.bind_apply, M.seq, M.call, h0, ih1]

/-- The deletions of two runs in a row. -/
theorem deletions_append (a b : List Event) :
    deletions (a ++ b) = deletions a ++ deletions b := by
  induction a with
  | nil => rfl
  | cons ev rest ih => cases ev <;> simp [deletions, ih]

/-- The deletions of a list of `delete` events. -/
theorem deletions_deletes (ps : List (Kind × Nat)) :
    deletions (ps.map (fun p => Event.delete p.1 p.2)) = ps := by
  induction ps with
  | nil => rfl
  | cons c rest ih => simp [deletions, ih]

/-- The close loop only appends close events, and all of them when it returns. -/
theorem closeEach_shape {σ : Type} (env : Env) (cs : List Nat) (s : St σ) :
    ∃ evs, (ResourceLifecycleManager.closeEach env cs s).2 = { s with log := s.log ++ evs } ∧
      deletions evs = [] ∧
      (∀ u, (ResourceLifecycleManager.closeEach env cs s).1 = Res.ok u →
        evs = cs.map Event.connectionClose) := by
  induction cs generalizing s with
  | nil => exact ⟨[], by simp [ResourceLifecycleManager.closeEach, M.pure_apply], rfl, by simp⟩
  | cons c rest ih =>
    obtain ⟨evs, h1, h2, h3⟩ := ih { s with log := s.log ++ [Event.connectionClose c] }
    cases hc : env.connectionClose s.log c with
    | error e =>
      refine ⟨[Event.connectionClose c], ?_, rfl, ?_⟩
      · simp [ResourceLifecycleManager.closeEach, M.bind_apply, M.seq, M.call, hc]
      · simp [ResourceLifecycleManager.closeEach, M.bind_apply, M.seq, M.call, hc]
    | ok u =>
      refine ⟨Event.connectionClose c :: evs, ?_, ?_, ?_⟩
      · simp [ResourceLifecycleManager.closeEach, M.bind_apply, M.seq, M.call, hc]
        rw [h1]
        simp
      · simpa [deletions] using h2
      · intro u hu
        simp [ResourceLifecycleManager.closeEach, M.bind_apply, M.seq, M.call, hc] at hu
        simp [h3 u hu]

/-- After a close loop that returned, `destroy` runs the five delete loops and
empties the vectors. -/
theorem destroy_of_closeEach_ok (env : Env) (s : St ResourceLifecycleManager)
    (evs : List Event)
    (h : ResourceLifecycleManager.closeEach env s.obj.connections s =
      (Res.ok (), { s with log := s.log ++ evs })) :
    ResourceLifecycleManager.destroy env s =
      (Res.ok (),
        { obj := ResourceLifecycleManager.new, log := s.log ++ evs ++ s.obj.sweepEvents }) := by
  simp [ResourceLifecycleManager.destroy, M.bind_apply, M.seq, M.getObj, h, deleteEach_apply,
    ResourceLifecycleManager.releaseAll, M.modifyObj, ResourceLifecycleManager.new,
    ResourceLifecycleManager.sweepEvents, ResourceLifecycleManager.sweep, Function.comp_def]

/-- After a close loop that did not return, `destroy` does nothing more. -/
theorem destroy_of_closeEach_not_ok (env : Env) (s : St ResourceLifecycleManager)
    (h : ∀ u, (ResourceLifecycleManager.closeEach env s.obj.connections s).1 ≠ Res.ok u) :
    ResourceLifecycleManager.destroy env s =
      ResourceLifecycleManager.closeEach env s.obj.connections s := by
  simp only [ResourceLifecycleManager.destroy, M.bind_apply, M.seq, M.getObj]
  generalize ResourceLifecycleManager.closeEach env s.obj.connections s = r at h
  rcases r with ⟨r1, r2⟩
  cases r1 with
  | ok u => exact absurd rfl (h u)
  | raised e => rfl
  | fault => rfl

/-- The deletions of a sweep are in the order of the categories. -/
theorem sweep_pairwise (m : ResourceLifecycleManager) :
    m.sweep.Pairwise (fun a b => a.1.rank ≤ b.1.rank) := by
  simp only [ResourceLifecycleManager.sweep, List.pairwise_append, List.pairwise_map,
    List.mem_append, List.mem_map]
  and_intros
  all_goals first
    | exact List.pairwise_of_forall (fun _ _ => Nat.le_refl _)
    | (rintro ⟨ka, a⟩ ha ⟨kb, b⟩ hb
       simp only [Prod.mk.injEq, exists_eq_right_right] at ha hb
       (try casesm* _ ∨ _) <;> (try casesm* _ ∧ _) <;> subst_vars <;> simp [Kind.rank])

/-- C3, as stated, fails: connection 1 of the sample manager fails to close.
`destroy` raises that error at once: connections 2 and 3 are never closed, no
registered handle is deleted, and the five vectors are left as they were. -/
theorem C3_destroy_aborts_on_failing_close :
    ResourceLifecycleManager.destroy (Env.closeFails 1)
        { obj := ResourceLifecycleManager.sample, log := [] } =
      (Res.raised closeError,
        { obj := ResourceLifecycleManager.sample, log := [Event.connectionClose 1] }) ∧
    ResourceLifecycleManager.sample.connections = [1, 2, 3] ∧
    ResourceLifecycleManager.sample.producers = [10] ∧
    Event.connectionClose 2 ∉ [Event.connectionClose 1] ∧
    Event.delete Kind.producer 10 ∉ [Event.connectionClose 1] := by
  refine ⟨rfl, rfl, rfl, by decide, by decide⟩

/-- C3, amended: when `close()` fails for a registered connection `c` (the
connections `pre` registered before it closing without error), `destroy` aborts
at that close.  The connections before `c` and `c` itself have been closed, in
registration order; no later connection is closed, no handle is deleted, the
five vectors are left unchanged, and the error raised is that of the failing
close. -/
theorem C3_destroy_stops_at_first_failing_close (env : Env) (m : ResourceLifecycleManager)
    (log : List Event) (pre : List Nat) (c : Nat) (post : List Nat) (e : Exc)
    (hm : m.connections = pre ++ c :: post)
    (hpre : ∀ p1 x p2, pre = p1 ++ x :: p2 →
      env.connectionClose (log ++ p1.map Event.connectionClose) x = Except.ok ())
    (hc : env.connectionClose (log ++ pre.map Event.connectionClose) c = Except.error e) :
    ResourceLifecycleManager.destroy env { obj := m, log := log } =
      (Res.raised e,
        { obj := m,
          log := log ++ pre.map Event.connectionClose ++ [Event.connectionClose c] }) := by
  have hclose := closeEach_fail env pre c post e { obj := m, log := log } hpre hc
  rw [destroy_of_closeEach_not_ok]
  · simpa [hm] using hclose
  · intro u
    simp [hm, hclose]

/-- Witness of the amended C3: in the sample manager (connections 1, 2, 3) the
close of connection 2 fails; connection 1 and 2 are closed, 3 is not, nothing
is deleted. -/
theorem C3_destroy_stops_at_first_failing_close_witness :
    ResourceLifecycleManager.destroy (Env.closeFails 2)
        { obj := ResourceLifecycleManager.sample, log := [] } =
      (Res.raised closeError,
        { obj := ResourceLifecycleManager.sample,
          log := [] ++ [1].map Event.connectionClose ++ [Event.connectionClose 2] }) :=
  C3_destroy_stops_at_first_failing_close (Env.closeFails 2) ResourceLifecycleManager.sample
    [] [1] 2 [3] closeError rfl
    (by
      intro p1 x p2 h
      have hx : x = 1 := by
        rcases p1 with _ | ⟨y, p1⟩
        · simp at h
          exact h.1.symm
        · rcases p1 with _ | ⟨z, p1⟩ <;> simp at h
      subst hx
      rfl)
    rfl

/-- C5: in every run of `destroy` the deletions follow the category order
producers, consumers, destinations, sessions, connections (no deletion of a
later category precedes one of an earlier category); and in a run that returns,
the deletions are exactly the registered producers, then the consumers, then
the destinations, then the sessions, then the connections, each vector in
registration order. -/
theorem C5_destroy_deletion_order (env : Env) (s : St ResourceLifecycleManager) :
    ∃ evs : List Event,
      (ResourceLifecycleManager.destroy env s).2.log = s.log ++ evs ∧
      (deletions evs).Pairwise (fun a b => a.1.rank ≤ b.1.rank) ∧
      (∀ u, (ResourceLifecycleManager.destroy env s).1 = Res.ok u →
        deletions evs =
          s.obj.producers.map (Prod.mk Kind.producer) ++
          s.obj.consumers.map (Prod.mk Kind.consumer) ++
          s.obj.destinations.map (Prod.mk Kind.destination) ++
          s.obj.sessions.map (Prod.mk Kind.session) ++
          s.obj.connections.map (Prod.mk Kind.connection)) := by
  obtain ⟨evs, h1, h2, h3⟩ := closeEach_shape env s.obj.connections s
  by_cases hok : ∃ u, (ResourceLifecycleManager.closeEach env s.obj.connections s).1 = Res.ok u
  · obtain ⟨u, hu⟩ := hok
    have hevs := h3 u hu
    have hce : ResourceLifecycleManager.closeEach env s.obj.connections s =
        (Res.ok (), { s with log := s.log ++ evs }) := by
      rw [← h1, ← hu]
    have hd := destroy_of_closeEach_ok env s evs hce
    have hdel : deletions (evs ++ s.obj.sweepEvents) = s.obj.sweep := by
      rw [deletions_append, h2, ResourceLifecycleManager.sweepEvents, deletions_deletes,
        List.nil_append]
    refine ⟨evs ++ s.obj.sweepEvents, ?_, ?_, ?_⟩
    · rw [hd]
      simp
    · rw [hdel]
      exact sweep_pairwise s.obj
    · intro _ _
      rw [hdel]
      rfl
  · have hno : ∀ u, (ResourceLifecycleManager.closeEach env s.obj.connections s).1 ≠ Res.ok u :=
      fun u hu => hok ⟨u, hu⟩
    have hd := destroy_of_closeEach_not_ok env s hno
    refine ⟨evs, ?_, ?_, ?_⟩
    · rw [hd, h1]
    · rw [h2]
      exact List.Pairwise.nil
    · intro u hu
      rw [hd] at hu
      exact absurd hu (hno u)

/-! ## CmsTemplate -/

/-- Marking an exception keeps its dynamic type. -/
theorem isActiveMQException_setMark (e : Exc) (m : Mark) :
    (e.setMark m).isActiveMQException = e.isActiveMQException := rfl

/-- The exception made by a catch-all clause is an `ActiveMQException`. -/
theorem isActiveMQException_new (m : Mark) (msg : String) :
    (Exc.new ExcKind.ActiveMQException m msg).isActiveMQException = true := rfl

/-- What `execute( SessionCallback* )` does deliver: when the callback returns
normally or throws an `ActiveMQException`, `close()` is called on the session
taken from the pool right after the callback. -/
theorem execute_returns_session (env : Env) (cb : SessionCallback) (s s1 s2 : St CmsTemplate)
    (sess : Nat) (r : Res Unit)
    (htake : CmsTemplate.takeSession env s = (Res.ok (some sess), s1))
    (hcb : cb (some sess) s1 = (r, s2))
    (hr : r = Res.ok () ∨ ∃ e, r = Res.raised e ∧ e.isActiveMQException = true) :
    ∃ rest, (CmsTemplate.execute env (some cb) s).2.log =
      s2.log ++ Event.sessionClose sess :: rest := by
  rcases s with ⟨t, log⟩
  rcases s1 with ⟨t1, log1⟩
  rcases s2 with ⟨t2, log2⟩
  rcases hr with rfl | ⟨e, rfl, he⟩
  · cases hclose : env.sessionClose log2 sess with
    | ok u =>
      refine ⟨[], ?_⟩
      simp [CmsTemplate.execute, M.frame, M.tryCatch, M.bind_apply, M.seq, M.inFrame, htake,
        M.setLocal, M.getLocal, hcb, M.byRef, CmsTemplate.returnSession, M.call, hclose,
        M.pure_apply]
    | error e1 =>
      refine ⟨[Event.sessionClose sess], ?_⟩
      by_cases h1 : e1.isActiveMQException = true <;>
      rcases hclose2 : env.sessionClose (log2 ++ [Event.sessionClose sess]) sess with e2 | u <;>
      (try by_cases h2 : e2.isActiveMQException = true) <;>
      simp [CmsTemplate.execute, M.frame, M.tryCatch, M.bind_apply, M.seq, M.inFrame, htake,
        M.setLocal, M.getLocal, hcb, M.byRef, CmsTemplate.returnSession, M.call, hclose,
        hclose2, M.pure_apply, AMQ_CATCH_RETHROW, AMQ_CATCHALL_THROW, M.raise, h1,
        isActiveMQException_setMark, isActiveMQException_new, *]
  · refine ⟨[], ?_⟩
    rcases hclose : env.sessionClose log2 sess with e2 | u <;>
    (try by_cases h2 : e2.isActiveMQException = true) <;>
    simp [CmsTemplate.execute, M.frame, M.tryCatch, M.bind_apply, M.seq, M.inFrame, htake,
      M.setLocal, M.getLocal, hcb, M.byRef, CmsTemplate.returnSession, M.call, hclose,
      M.pure_apply, AMQ_CATCH_RETHROW, AMQ_CATCHALL_THROW, M.raise, he, *]

/-- What `execute( SessionCallback* )` misses: when the callback throws anything
that is not an `ActiveMQException`, no catch clause runs; `execute` raises that
exception and makes no call after the callback. -/
theorem execute_skips_return_on_other_exception (env : Env) (cb : SessionCallback)
    (s s1 s2 : St CmsTemplate) (sess : Option Nat) (e : Exc)
    (htake : CmsTemplate.takeSession env s = (Res.ok sess, s1))
    (hcb : cb sess s1 = (Res.raised e, s2))
    (he : e.isActiveMQException = false) :
    CmsTemplate.execute env (some cb) s = (Res.raised e, s2) := by
  rcases s with ⟨t, log⟩
  rcases s1 with ⟨t1, log1⟩
  rcases s2 with ⟨t2, log2⟩
  simp [CmsTemplate.execute, M.frame, M.tryCatch, M.bind_apply, M.seq, M.inFrame, htake,
    M.setLocal, M.getLocal, hcb, M.raise, he]

/-- C1: evaluation of `execute( SessionCallback* )` at the failing input.  The
pool hands out session 0, the callback throws an exception that implements
`cms::CMSException` without deriving from `ActiveMQException`: `execute` raises
that exception and `close()` is never called on session 0, so the session is
not handed back through `returnSession`. -/
theorem C1_execute_keeps_session_on_foreign_exception :
    (CmsTemplate.takeSession Env.quiet { obj := CmsTemplate.sample (some 9) "", log := [] }).1 =
      Res.ok (some 0) ∧
    CmsTemplate.execute Env.quiet (some throwingSessionCallback)
        { obj := CmsTemplate.sample (some 9) "", log := [] } =
      (Res.raised callbackError,
        { obj := CmsTemplate.sample (some 9) "",
          log := [Event.poolTakeSession { connection := some 0, acknowledgeMode := 0 },
                  Event.user 1] }) ∧
    Event.sessionClose 0 ∉
      [Event.poolTakeSession { connection := some 0, acknowledgeMode := 0 }, Event.user 1] := by
  refine ⟨rfl, rfl, by decide⟩

/-- C2: evaluation of `execute( ProducerCallback* )` at the failing input.  The
session creates producer 1 for the callback, the callback throws an exception
that implements `cms::CMSException` without deriving from `ActiveMQException`:
`execute` raises (an `ActiveMQException` made by the catch-all clause) and
producer 1 has been neither closed nor deleted. -/
theorem C2_executeProducer_keeps_producer_on_foreign_exception :
    CmsTemplate.executeProducer Env.quiet (some throwingProducerCallback)
        { obj := CmsTemplate.sample (some 9) "", log := [] } =
      (Res.raised
        { kind := ExcKind.ActiveMQException, message := "caught unknown exception",
          marks := [("CmsTemplate.cpp", 331)] },
        { obj := CmsTemplate.sample (some 9) "",
          log := [Event.poolTakeSession { connection := some 0, acknowledgeMode := 0 },
                  Event.sessionCreateProducer 0 (some 9),
                  Event.user 1] }) ∧
    Env.quiet.sessionCreateProducer
        [Event.poolTakeSession { connection := some 0, acknowledgeMode := 0 }] 0 (some 9) =
      Except.ok (some 1) ∧
    Event.producerClose 1 ∉
      [Event.poolTakeSession { connection := some 0, acknowledgeMode := 0 },
       Event.sessionCreateProducer 0 (some 9), Event.user 1] ∧
    Event.delete Kind.producer 1 ∉
      [Event.poolTakeSession { connection := some 0, acknowledgeMode := 0 },
       Event.sessionCreateProducer 0 (some 9), Event.user 1] := by
  refine ⟨rfl, rfl, by decide, by decide⟩

/-- C6: `send( messageCreator )` on a template whose `defaultDestination` is
null and whose `defaultDestinationName` is empty raises an
`IllegalStateException`, whatever the environment and the message creator; the
template and the log of calls are as before, so no session was taken from a
pool and the message creator was not invoked. -/
theorem C6_send_without_default_destination (env : Env) (messageCreator : Option MessageCreator)
    (s : St CmsTemplate) (hdest : s.obj.defaultDestination = none)
    (hname : s.obj.defaultDestinationName = "") :
    CmsTemplate.send env messageCreator s =
      (Res.raised
        { kind := ExcKind.IllegalStateException,
          message := "No defaultDestination or defaultDestinationName specified. Check configuration of CmsTemplate.",
          marks := [("CmsTemplate.cpp", 109), ("CmsTemplate.cpp", 381)] },
        s) := by
  simp [CmsTemplate.send, M.tryCatch, M.bind_apply, M.seq, CmsTemplate.checkDefaultDestination,
    M.getObj, M.raise, hdest, hname, AMQ_CATCH_RETHROW, Exc.new, Exc.setMark,
    Exc.isActiveMQException, Exc.isIllegalStateException, CmsTemplate.file]

/-- Witness of C6: the sample template without default destination and with an
empty name, a message creator that would return message 77. -/
theorem C6_send_without_default_destination_witness :
    CmsTemplate.send Env.quiet (some (fun _ => pure (some 77)))
        { obj := CmsTemplate.sample none "", log := [] } =
      (Res.raised
        { kind := ExcKind.IllegalStateException,
          message := "No defaultDestination or defaultDestinationName specified. Check configuration of CmsTemplate.",
          marks := [("CmsTemplate.cpp", 109), ("CmsTemplate.cpp", 381)] },
        { obj := CmsTemplate.sample none "", log := [] }) :=
  C6_send_without_default_destination Env.quiet _ _ rfl rfl


/-! ## ConnectionId -/

/-- C11: for every `ConnectionId` `c` (any value string, the empty default
included), `c.cloneDataStructure()` is a distinct object that equals `c` and
carries the same value string: `clone(c).equals(c)` is true. -/
theorem C11_ConnectionId_clone_equals (c : ConnectionId) :
    c.cloneDataStructure.equals (Ptr.obj (DataStructure.connectionId c)) = true ∧
    c.cloneDataStructure.value = c.value ∧
    ConnectionId.new.cloneDataStructure.equals
      (Ptr.obj (DataStructure.connectionId ConnectionId.new)) = true := by
  simp [ConnectionId.cloneDataStructure, ConnectionId.copyDataStructure, ConnectionId.equals,
    ConnectionId.new, Ptr.deref, DataStructure.asConnectionId, BaseDataStructure.equals]

/-! ## ResourceLifecycleManager: the destructor -/

/-- C17: the destructor of `ResourceLifecycleManager` swallows errors.  Whenever
the `destroy()` sweep it runs raises a `cms::CMSException` (for example from a
failing connection close), the destructor returns normally, in the state the
sweep left; and no exception that leaves the destructor is a
`cms::CMSException`. -/
theorem C17_destructor_absorbs_CMSException (env : Env) (s : St ResourceLifecycleManager) :
    (∀ e, (ResourceLifecycleManager.destroy env s).1 = Res.raised e →
      e.isCMSException = true →
      ResourceLifecycleManager.destructor env s =
        (Res.ok (), (ResourceLifecycleManager.destroy env s).2)) ∧
    (∀ e, (ResourceLifecycleManager.destructor env s).1 = Res.raised e →
      e.isCMSException = false) := by
  unfold ResourceLifecycleManager.destructor M.tryCatch
  rcases hd : ResourceLifecycleManager.destroy env s with ⟨r, s1⟩
  cases r with
  | ok u => simp
  | fault => simp
  | raised e0 =>
    by_cases hk : e0.isCMSException = true
    · simp [hk, M.pure_apply]
    · simp [hk, M.raise]

/-- Witness of C17: in the sample manager the close of connection 1 raises a
`cms::CMSException`; `destroy` raises it, the destructor returns normally. -/
theorem C17_destructor_absorbs_CMSException_witness :
    (ResourceLifecycleManager.destroy (Env.closeFails 1)
        { obj := ResourceLifecycleManager.sample, log := [] }).1 = Res.raised closeError ∧
    ResourceLifecycleManager.destructor (Env.closeFails 1)
        { obj := ResourceLifecycleManager.sample, log := [] } =
      (Res.ok (),
        (ResourceLifecycleManager.destroy (Env.closeFails 1)
          { obj := ResourceLifecycleManager.sample, log := [] }).2) :=
  ⟨rfl,
    (C17_destructor_absorbs_CMSException (Env.closeFails 1)
      { obj := ResourceLifecycleManager.sample, log := [] }).1 closeError rfl rfl⟩

/-! ## CmsTemplate: construction, producers, default destination -/

/-- C18: a newly constructed `CmsTemplate`, by either constructor and whatever
the members held before, has `explicitQosEnabled = false`,
`deliveryMode = PERSISTENT`, `priority = DEFAULT_PRIORITY`,
`timeToLive = DEFAULT_TIME_TO_LIVE`, `messageIdEnabled = true`,
`messageTimestampEnabled = true`, `noLocal = false`,
`receiveTimeout = RECEIVE_TIMEOUT_INDEFINITE_WAIT`, no default destination
object and an empty default destination name; with the constants of the spec
the priority is 4. -/
theorem C18_constructor_defaults (env : Env) (raw : St CmsTemplate)
    (connectionFactory : Option Nat) :
    (∀ r ∈ [CmsTemplate.construct env raw,
            CmsTemplate.constructWith env connectionFactory raw],
      r.1 = Res.ok () ∧
      r.2.obj.explicitQosEnabled = false ∧
      r.2.obj.deliveryMode = env.PERSISTENT ∧
      r.2.obj.priority = env.DEFAULT_PRIORITY ∧
      r.2.obj.timeToLive = env.DEFAULT_TIME_TO_LIVE ∧
      r.2.obj.messageIdEnabled = true ∧
      r.2.obj.messageTimestampEnabled = true ∧
      r.2.obj.noLocal = false ∧
      r.2.obj.receiveTimeout = env.RECEIVE_TIMEOUT_INDEFINITE_WAIT ∧
      r.2.obj.defaultDestination = none ∧
      r.2.obj.defaultDestinationName = "") ∧
    (CmsTemplate.construct Env.quiet raw).2.obj.priority = 4 ∧
    (CmsTemplate.constructWith Env.quiet connectionFactory raw).2.obj.priority = 4 := by
  refine ⟨?_, rfl, rfl⟩
  simp [CmsTemplate.construct, CmsTemplate.constructWith, CmsTemplate.initDefaults,
    CmsTemplate.setConnectionFactory, M.bind_apply, M.seq, M.modifyObj]

/-- C19: `destroyProducer` on a non-null producer calls `close()` on it, then
deletes it once and sets the caller's handle to null, and returns normally,
both when `close()` returns and when it raises a `cms::CMSException`; on a null
handle it does nothing. -/
theorem C19_destroyProducer (env : Env) (t : CmsTemplate) (log : List Event) :
    (∀ producer : Nat,
      (env.producerClose log producer = Except.ok () ∨
        ∃ e, env.producerClose log producer = Except.error e ∧ e.isCMSException = true) →
      CmsTemplate.destroyProducer env { obj := (t, some producer), log := log } =
        (Res.ok (),
          { obj := (t, none),
            log := log ++ [Event.producerClose producer,
                           Event.delete Kind.producer producer] })) ∧
    CmsTemplate.destroyProducer env { obj := (t, none), log := log } =
      (Res.ok (), { obj := (t, none), log := log }) := by
  refine ⟨?_, ?_⟩
  · rintro producer (h | ⟨e, h, he⟩)
    · simp [CmsTemplate.destroyProducer, M.bind_apply, M.seq, M.getLocal, M.tryCatch, M.call, h,
        M.emit, M.setLocal]
    · simp [CmsTemplate.destroyProducer, M.bind_apply, M.seq, M.getLocal, M.tryCatch, M.call, h,
        M.emit, M.setLocal, AMQ_CATCH_NOTHROW, M.pure_apply, he]
  · simp [CmsTemplate.destroyProducer, M.bind_apply, M.seq, M.getLocal, M.pure_apply]

/-- Witness of C19: producer 1 whose `close()` raises a `cms::CMSException`. -/
theorem C19_destroyProducer_witness :
    CmsTemplate.destroyProducer
        { Env.quiet with producerClose := fun _ _ => Except.error closeError }
        { obj := (CmsTemplate.sample (some 9) "", some 1), log := [] } =
      (Res.ok (),
        { obj := (CmsTemplate.sample (some 9) "", none),
          log := [] ++ [Event.producerClose 1, Event.delete Kind.producer 1] }) :=
  (C19_destroyProducer { Env.quiet with producerClose := fun _ _ => Except.error closeError }
    (CmsTemplate.sample (some 9) "") []).1 1 (Or.inr ⟨closeError, rfl, rfl⟩)

/-- C20: `resolveDefaultDestination` memoises the resolved name.  On a template
that has only a default destination name, a first call whose name resolution
returns destination `d` calls `resolveDestinationName` once with that name,
returns `d` and stores it as the default destination object; and on every
template whose default destination object is `d` (so after that first call, or
when it was set beforehand) a call returns `d` and leaves template and log as
they are: no name resolution is made, with whatever session and however often. -/
theorem C20_resolveDefaultDestination_memoises (env : Env) :
    (∀ (s : St CmsTemplate) (session : Option Nat) (d : Nat),
      s.obj.defaultDestination = none →
      s.obj.defaultDestinationName ≠ "" →
      env.resolveDestinationName s.log session s.obj.defaultDestinationName =
        Except.ok (some d) →
      CmsTemplate.resolveDefaultDestination env session s =
        (Res.ok (some d),
          { obj := { s.obj with defaultDestination := some d },
            log := s.log ++
              [Event.resolveDestinationName session s.obj.defaultDestinationName] })) ∧
    (∀ (s : St CmsTemplate) (session : Option Nat) (d : Nat),
      s.obj.defaultDestination = some d →
      CmsTemplate.resolveDefaultDestination env session s = (Res.ok (some d), s)) := by
  refine ⟨?_, ?_⟩
  · intro s session d hnone hname hres
    have hlen : ¬ s.obj.defaultDestinationName.length = 0 := by
      intro h
      exact hname (String.ext (List.length_eq_zero.mp h))
    simp [CmsTemplate.resolveDefaultDestination, CmsTemplate.checkDefaultDestination,
      CmsTemplate.resolveDestinationName, M.tryCatch, M.bind_apply, M.seq, M.getObj,
      M.pure_apply, M.call, M.modifyObj, hnone, hlen, hres]
  · intro s session d hsome
    simp [CmsTemplate.resolveDefaultDestination, CmsTemplate.checkDefaultDestination,
      M.tryCatch, M.bind_apply, M.seq, M.getObj, M.pure_apply, hsome]

/-! ## CmsTemplate: sending -/

/-- The `send` calls of two runs in a row. -/
theorem sends_append (a b : List Event) : sends (a ++ b) = sends a ++ sends b := by
  induction a with
  | nil => rfl
  | cons ev rest ih => cases ev <;> simp [sends, ih]

/-- What `catch( cms::CMSException& )` lets pass is no `ActiveMQException`. -/
theorem isActiveMQException_of_not_isCMSException (e : Exc)
    (h : ¬ e.isCMSException = true) : e.isActiveMQException = false := by
  simp only [Exc.isCMSException, Exc.isActiveMQException, Bool.or_eq_true, not_or] at h ⊢
  simpa using h.1

set_option maxHeartbeats 1000000 in
/-- C12: `doSend` with a non-null session and destination, once the producer
`p` is created and the message creator has returned the message `m`, calls
`send` on `p` exactly once, with `m`: with exactly the template's
`deliveryMode`, `priority` and `timeToLive` when `explicitQosEnabled` is true,
and in the one-argument form when it is false.  The events `doSend` adds after
the message creation hold that one `send` and no other. -/
theorem C12_doSend_sends_once (env : Env) (session dest producer : Nat)
    (createMessage : MessageCreator) (message : Option Nat) (s s1 s2 : St CmsTemplate)
    (hproducer : CmsTemplate.createProducer env (some session) (some dest) s =
      (Res.ok (some producer), s1))
    (hmessage : createMessage (some session) s1 = (Res.ok message, s2)) :
    ∃ evs,
      (CmsTemplate.doSend env (some session) (some dest) (some createMessage) s).2.log =
        s2.log ++ evs ∧
      sends evs =
        [(producer, message,
          if s2.obj.explicitQosEnabled = true then
            some { deliveryMode := s2.obj.deliveryMode, priority := s2.obj.priority,
                   timeToLive := s2.obj.timeToLive }
          else none)] := by
  rcases s with ⟨t, log⟩
  rcases s1 with ⟨t1, log1⟩
  rcases s2 with ⟨t2, log2⟩
  simp only []
  by_cases hq : t2.explicitQosEnabled = true
  · rcases hsend : env.producerSend log2 producer message
        (some { deliveryMode := t2.deliveryMode, priority := t2.priority,
                timeToLive := t2.timeToLive }) with e | u <;>
    rcases hclose : env.producerClose
        (log2 ++ [Event.producerSend producer message
          (some { deliveryMode := t2.deliveryMode, priority := t2.priority,
                  timeToLive := t2.timeToLive })]) producer with e2 | u2 <;>
    (try by_cases he : e.isActiveMQException = true) <;>
    (try by_cases he2 : e2.isCMSException = true) <;>
    (try have he2a := isActiveMQException_of_not_isCMSException e2 he2) <;>
    cases message <;>
    simp [CmsTemplate.doSend, M.frame, M.tryCatch, M.bind_apply, M.seq, M.inFrame,
      hproducer, hmessage, M.setLocal, M.getLocal, M.getObj, M.byRef, M.call, hq,
      hsend, hclose, CmsTemplate.destroyProducer, CmsTemplate.destroyMessage,
      AMQ_CATCH_NOTHROW, M.raise, M.emit, M.pure_apply, sends,
      isActiveMQException_setMark, *]
  · rcases hsend : env.producerSend log2 producer message none with e | u <;>
    rcases hclose : env.producerClose
        (log2 ++ [Event.producerSend producer message none]) producer with e2 | u2 <;>
    (try by_cases he : e.isActiveMQException = true) <;>
    (try by_cases he2 : e2.isCMSException = true) <;>
    (try have he2a := isActiveMQException_of_not_isCMSException e2 he2) <;>
    cases message <;>
    simp [CmsTemplate.doSend, M.frame, M.tryCatch, M.bind_apply, M.seq, M.inFrame,
      hproducer, hmessage, M.setLocal, M.getLocal, M.getObj, M.byRef, M.call, hq,
      hsend, hclose, CmsTemplate.destroyProducer, CmsTemplate.destroyMessage,
      AMQ_CATCH_NOTHROW, M.raise, M.emit, M.pure_apply, sends,
      isActiveMQException_setMark, *]

/-- Witness of C12: explicit quality of service (delivery mode 1, priority 7,
time to live 1000); session 0 creates producer 1 and the message creator
returns message 77. -/
theorem C12_doSend_sends_once_witness :
    ∃ evs,
      (CmsTemplate.doSend Env.quiet (some 0) (some 9) (some (fun _ => pure (some 77)))
        { obj := { CmsTemplate.sample (some 9) "" with
                   explicitQosEnabled := true, deliveryMode := 1, priority := 7,
                   timeToLive := 1000 },
          log := [Event.poolTakeSession { connection := some 0, acknowledgeMode := 0 }] }).2.log =
        [Event.poolTakeSession { connection := some 0, acknowledgeMode := 0 },
         Event.sessionCreateProducer 0 (some 9)] ++ evs ∧
      sends evs =
        [(1, some 77, some { deliveryMode := 1, priority := 7, timeToLive := 1000 })] :=
  C12_doSend_sends_once Env.quiet 0 9 1 (fun _ => pure (some 77)) (some 77)
    { obj := { CmsTemplate.sample (some 9) "" with
               explicitQosEnabled := true, deliveryMode := 1, priority := 7,
               timeToLive := 1000 },
      log := [Event.poolTakeSession { connection := some 0, acknowledgeMode := 0 }] }
    { obj := { CmsTemplate.sample (some 9) "" with
               explicitQosEnabled := true, deliveryMode := 1, priority := 7,
               timeToLive := 1000 },
      log := [Event.poolTakeSession { connection := some 0, acknowledgeMode := 0 },
              Event.sessionCreateProducer 0 (some 9)] }
    { obj := { CmsTemplate.sample (some 9) "" with
               explicitQosEnabled := true, deliveryMode := 1, priority := 7,
               timeToLive := 1000 },
      log := [Event.poolTakeSession { connection := some 0, acknowledgeMode := 0 },
              Event.sessionCreateProducer 0 (some 9)] }
    rfl rfl

/-! ## CmsTemplate: exceptions through `execute` -/

/-- C13, as stated, fails: the callback raises the `ActiveMQException`
`activeMQError`, and the `close()` that `returnSession` performs in the catch
block fails.  `execute` then raises the exception of `returnSession`, which
carries neither the message nor the marks of the callback's exception. -/
theorem C13_execute_loses_exception_when_close_fails :
    activeMQSessionCallback (some 0)
        { obj := CmsTemplate.sample (some 9) "",
          log := [Event.poolTakeSession { connection := some 0, acknowledgeMode := 0 }] } =
      (Res.raised activeMQError,
        { obj := CmsTemplate.sample (some 9) "",
          log := [Event.poolTakeSession { connection := some 0, acknowledgeMode := 0 }] }) ∧
    CmsTemplate.execute Env.sessionCloseFails (some activeMQSessionCallback)
        { obj := CmsTemplate.sample (some 9) "", log := [] } =
      (Res.raised
        { kind := ExcKind.ActiveMQException, message := "caught unknown exception",
          marks := [("CmsTemplate.cpp", 194)] },
        { obj := CmsTemplate.sample (some 9) "",
          log := [Event.poolTakeSession { connection := some 0, acknowledgeMode := 0 },
                  Event.sessionClose 0] }) ∧
    "caught unknown exception" ≠ activeMQError.message := by
  refine ⟨rfl, rfl, by decide⟩

/-- C13, amended: when the callback's `doInCms` raises an `ActiveMQException`
`e` and the `close()` of the pooled session performed by `returnSession` does
not throw, `execute` raises an exception of the same type that carries `e`'s
message and `e`'s stack marks in order, with exactly one additional mark, of
the execute site (`CmsTemplate.cpp:310`), appended; the session has been
closed. -/
theorem C13_execute_marks_and_rethrows (env : Env) (cb : SessionCallback)
    (s s1 s2 : St CmsTemplate) (session : Nat) (e : Exc)
    (htake : CmsTemplate.takeSession env s = (Res.ok (some session), s1))
    (hcb : cb (some session) s1 = (Res.raised e, s2))
    (he : e.isActiveMQException = true)
    (hclose : env.sessionClose s2.log session = Except.ok ()) :
    CmsTemplate.execute env (some cb) s =
      (Res.raised
        { kind := e.kind, message := e.message,
          marks := e.marks ++ [("CmsTemplate.cpp", 310)] },
        { obj := s2.obj, log := s2.log ++ [Event.sessionClose session] }) := by
  rcases s with ⟨t, log⟩
  rcases s1 with ⟨t1, log1⟩
  rcases s2 with ⟨t2, log2⟩
  simp [CmsTemplate.execute, M.frame, M.tryCatch, M.bind_apply, M.seq, M.inFrame, htake,
    M.setLocal, M.getLocal, hcb, M.byRef, CmsTemplate.returnSession, M.call, hclose,
    M.pure_apply, M.raise, he, Exc.setMark, CmsTemplate.file]

/-- Witness of the amended C13: the callback raises `activeMQError`, every
`close()` succeeds. -/
theorem C13_execute_marks_and_rethrows_witness :
    CmsTemplate.execute Env.quiet (some activeMQSessionCallback)
        { obj := CmsTemplate.sample (some 9) "", log := [] } =
      (Res.raised
        { kind := activeMQError.kind, message := activeMQError.message,
          marks := activeMQError.marks ++ [("CmsTemplate.cpp", 310)] },
        { obj := CmsTemplate.sample (some 9) "",
          log := [Event.poolTakeSession { connection := some 0, acknowledgeMode := 0 }] ++
            [Event.sessionClose 0] }) :=
  C13_execute_marks_and_rethrows Env.quiet activeMQSessionCallback
    { obj := CmsTemplate.sample (some 9) "", log := [] }
    { obj := CmsTemplate.sample (some 9) "",
      log := [Event.poolTakeSession { connection := some 0, acknowledgeMode := 0 }] }
    { obj := CmsTemplate.sample (some 9) "",
      log := [Event.poolTakeSession { connection := some 0, acknowledgeMode := 0 }] }
    0 activeMQError rfl rfl rfl rfl

/-- C14: evaluation of `doSend` at the failing input.  Session 0 creates
producer 1, then the message creator throws an exception that implements
`cms::CMSException` without deriving from `ActiveMQException`: `doSend` raises
that exception and producer 1 has been neither closed nor deleted. -/
theorem C14_doSend_keeps_producer_on_foreign_exception :
    CmsTemplate.doSend Env.quiet (some 0) (some 9) (some throwingMessageCreator)
        { obj := CmsTemplate.sample (some 9) "",
          log := [Event.poolTakeSession { connection := some 0, acknowledgeMode := 0 }] } =
      (Res.raised callbackError,
        { obj := CmsTemplate.sample (some 9) "",
          log := [Event.poolTakeSession { connection := some 0, acknowledgeMode := 0 },
                  Event.sessionCreateProducer 0 (some 9),
                  Event.user 2] }) ∧
    Env.quiet.sessionCreateProducer
        [Event.poolTakeSession { connection := some 0, acknowledgeMode := 0 }] 0 (some 9) =
      Except.ok (some 1) ∧
    Event.producerClose 1 ∉
      [Event.poolTakeSession { connection := some 0, acknowledgeMode := 0 },
       Event.sessionCreateProducer 0 (some 9), Event.user 2] ∧
    Event.delete Kind.producer 1 ∉
      [Event.poolTakeSession { connection := some 0, acknowledgeMode := 0 },
       Event.sessionCreateProducer 0 (some 9), Event.user 2] := by
  refine ⟨rfl, rfl, by decide, by decide⟩

/-! ## CmsTemplate: session pools -/

/-- The loop of `destroySessionPools` returns and keeps the connection, the
acknowledge mode and the number of slots. -/
theorem destroySessionPoolsLoop_keeps (ixs : List Nat) (s : St CmsTemplate) :
    (CmsTemplate.destroySessionPoolsLoop ixs s).1 = Res.ok () ∧
    (CmsTemplate.destroySessionPoolsLoop ixs s).2.obj.connection = s.obj.connection ∧
    (CmsTemplate.destroySessionPoolsLoop ixs s).2.obj.sessionPools.length =
      s.obj.sessionPools.length := by
  induction ixs generalizing s with
  | nil => simp [CmsTemplate.destroySessionPoolsLoop, M.pure_apply]
  | cons ix rest ih =>
    rcases hget : s.obj.sessionPools[ix]? with _ | (_ | pool)
    · have := ih s
      simpa [CmsTemplate.destroySessionPoolsLoop, M.bind_apply, M.seq, M.getObj, List.get?_eq_getElem?, hget,
        M.pure_apply] using this
    · have := ih s
      simpa [CmsTemplate.destroySessionPoolsLoop, M.bind_apply, M.seq, M.getObj, List.get?_eq_getElem?, hget,
        M.pure_apply] using this
    · have := ih { obj := { s.obj with sessionPools := s.obj.sessionPools.set ix none },
                   log := s.log ++ [Event.deleteSessionPool pool] }
      simpa [CmsTemplate.destroySessionPoolsLoop, M.bind_apply, M.seq, M.getObj, List.get?_eq_getElem?, hget,
        M.pure_apply, M.emit, M.modifyObj] using this

/-- The loop of `createSessionPools` returns, keeps the connection and the number
of slots, and leaves in every slot it visits a pool created with the index of
the slot as acknowledge mode, on the template's connection. -/
theorem createSessionPoolsLoop_slots (ixs : List Nat) (s : St CmsTemplate) :
    (CmsTemplate.createSessionPoolsLoop ixs s).1 = Res.ok () ∧
    (CmsTemplate.createSessionPoolsLoop ixs s).2.obj.connection = s.obj.connection ∧
    (CmsTemplate.createSessionPoolsLoop ixs s).2.obj.sessionPools.length =
      s.obj.sessionPools.length ∧
    (∀ ix, ix ∈ ixs → ix < s.obj.sessionPools.length →
      (CmsTemplate.createSessionPoolsLoop ixs s).2.obj.sessionPools.get? ix =
        some (some { connection := s.obj.connection, acknowledgeMode := ix })) ∧
    (∀ ix, ix ∉ ixs →
      (CmsTemplate.createSessionPoolsLoop ixs s).2.obj.sessionPools.get? ix =
        s.obj.sessionPools.get? ix) := by
  induction ixs generalizing s with
  | nil => simp [CmsTemplate.createSessionPoolsLoop, M.pure_apply]
  | cons ix0 rest ih =>
    obtain ⟨h1, h2, h3, h4, h5⟩ := ih
      { obj := { s.obj with
                 sessionPools := s.obj.sessionPools.set ix0
                   (some { connection := s.obj.connection, acknowledgeMode := ix0 }) },
        log := s.log ++
          [Event.newSessionPool { connection := s.obj.connection, acknowledgeMode := ix0 }] }
    simp only [List.length_set] at h3 h4
    have hrun : CmsTemplate.createSessionPoolsLoop (ix0 :: rest) s =
        CmsTemplate.createSessionPoolsLoop rest
          { obj := { s.obj with
                     sessionPools := s.obj.sessionPools.set ix0
                       (some { connection := s.obj.connection, acknowledgeMode := ix0 }) },
            log := s.log ++
              [Event.newSessionPool
                { connection := s.obj.connection, acknowledgeMode := ix0 }] } := by
      simp [CmsTemplate.createSessionPoolsLoop, M.bind_apply, M.seq, M.getObj, M.emit,
        M.modifyObj]
    rw [hrun]
    refine ⟨h1, h2, h3, ?_, ?_⟩
    swap
    · intro ix hnot
      rw [h5 ix (fun h => hnot (List.mem_cons_of_mem _ h))]
      have hne : ix0 ≠ ix := fun h => hnot (h ▸ List.mem_cons_self _ _)
      simp [List.get?_eq_getElem?, List.getElem?_set, hne]
    intro ix hmem hlt
    by_cases hrest : ix ∈ rest
    · exact h4 ix hrest hlt
    · have hix : ix = ix0 := by
        rcases List.mem_cons.mp hmem with h | h
        · exact h
        · exact absurd h hrest
      subst hix
      rw [h5 ix hrest]
      simp [List.get?_eq_getElem?, List.getElem?_set, hlt]

/-- C15: after `createSessionPools` (on an array of `NUM_SESSION_POOLS` slots),
for every index `ix < NUM_SESSION_POOLS` the pool in slot `ix` was created with
acknowledge mode `ix` on the template's connection; and `takeSession`, on a
template holding these pools, takes from the slot whose index is the template's
current session acknowledge mode: the one call it makes is `takeSession()` on
the pool of that mode, and the session that pool returns is what it returns. -/
theorem C15_session_pools_by_ack_mode (env : Env) (s : St CmsTemplate)
    (hslots : s.obj.sessionPools.length = env.NUM_SESSION_POOLS) :
    (CmsTemplate.createSessionPools env s).1 = Res.ok () ∧
    (∀ ix, ix < env.NUM_SESSION_POOLS →
      (CmsTemplate.createSessionPools env s).2.obj.sessionPools.get? ix =
        some (some { connection := s.obj.connection, acknowledgeMode := ix })) ∧
    (∀ s2 : St CmsTemplate,
      s2.obj.sessionPools = (CmsTemplate.createSessionPools env s).2.obj.sessionPools →
      s2.obj.sessionAcknowledgeMode < env.NUM_SESSION_POOLS →
      (CmsTemplate.takeSession env s2).2.log =
        s2.log ++ [Event.poolTakeSession
          { connection := s.obj.connection,
            acknowledgeMode := s2.obj.sessionAcknowledgeMode }] ∧
      ∀ session,
        env.poolTakeSession s2.log
          { connection := s.obj.connection,
            acknowledgeMode := s2.obj.sessionAcknowledgeMode } = Except.ok session →
        (CmsTemplate.takeSession env s2).1 = Res.ok session) := by
  obtain ⟨d1, d2, d3⟩ :=
    destroySessionPoolsLoop_keeps (List.range env.NUM_SESSION_POOLS) s
  obtain ⟨c1, c2, c3, c4, _⟩ :=
    createSessionPoolsLoop_slots (List.range env.NUM_SESSION_POOLS)
      (CmsTemplate.destroySessionPoolsLoop (List.range env.NUM_SESSION_POOLS) s).2
  have hrun : CmsTemplate.createSessionPools env s =
      CmsTemplate.createSessionPoolsLoop (List.range env.NUM_SESSION_POOLS)
        (CmsTemplate.destroySessionPoolsLoop (List.range env.NUM_SESSION_POOLS) s).2 := by
    simp only [CmsTemplate.createSessionPools, CmsTemplate.destroySessionPools, M.bind_apply,
      M.seq]
    rcases hd : CmsTemplate.destroySessionPoolsLoop (List.range env.NUM_SESSION_POOLS) s
      with ⟨r, s1⟩
    rw [hd] at d1
    simp only at d1
    subst d1
    rfl
  have hslot : ∀ ix, ix < env.NUM_SESSION_POOLS →
      (CmsTemplate.createSessionPools env s).2.obj.sessionPools.get? ix =
        some (some { connection := s.obj.connection, acknowledgeMode := ix }) := by
    intro ix hix
    rw [hrun, c4 ix (List.mem_range.mpr hix) (by rw [d3, hslots]; exact hix), d2]
  refine ⟨by rw [hrun]; exact c1, hslot, ?_⟩
  intro s2 hpools hmode
  have hget := hslot _ hmode
  rw [← hpools] at hget
  rcases s2 with ⟨t2, log2⟩
  simp only [List.get?_eq_getElem?] at hget hmode ⊢
  rcases htake : env.poolTakeSession log2
      { connection := s.obj.connection, acknowledgeMode := t2.sessionAcknowledgeMode }
    with e | r
  · by_cases he : e.isActiveMQException = true <;>
      simp [CmsTemplate.takeSession, M.tryCatch, M.bind_apply, M.seq, M.getObj, hget, M.call,
        htake, AMQ_CATCH_RETHROW, AMQ_CATCHALL_THROW, M.raise, he]
  · simp [CmsTemplate.takeSession, M.tryCatch, M.bind_apply, M.seq, M.getObj, hget, M.call,
      htake]

/-- Witness of C15: a template with connection 0 and four empty slots. -/
theorem C15_session_pools_by_ack_mode_witness :
    (CmsTemplate.createSessionPools Env.quiet
      { obj := { CmsTemplate.sample none "q" with sessionPools := [none, none, none, none] },
        log := [] }).2.obj.sessionPools.get? 2 =
      some (some { connection := some 0, acknowledgeMode := 2 }) :=
  (C15_session_pools_by_ack_mode Env.quiet
    { obj := { CmsTemplate.sample none "q" with sessionPools := [none, none, none, none] },
      log := [] } rfl).2.1 2 (by decide)

/-! ## CmsTemplate: the missing default destination in `execute` -/

/-- Taking a session does not change the template. -/
theorem takeSession_obj (env : Env) (s : St CmsTemplate) :
    (CmsTemplate.takeSession env s).2.obj = s.obj := by
  rcases s with ⟨t, log⟩
  rcases hget : t.sessionPools[t.sessionAcknowledgeMode]? with _ | (_ | pool)
  · simp [CmsTemplate.takeSession, M.tryCatch, M.bind_apply, M.seq, M.getObj,
      List.get?_eq_getElem?, hget, M.fault]
  · simp [CmsTemplate.takeSession, M.tryCatch, M.bind_apply, M.seq, M.getObj,
      List.get?_eq_getElem?, hget, M.fault]
  · rcases htake : env.poolTakeSession log pool with e | r
    · by_cases he : e.isActiveMQException = true <;>
        simp [CmsTemplate.takeSession, M.tryCatch, M.bind_apply, M.seq, M.getObj,
          List.get?_eq_getElem?, hget, M.call, htake, AMQ_CATCH_RETHROW, AMQ_CATCHALL_THROW,
          M.raise, he]
    · simp [CmsTemplate.takeSession, M.tryCatch, M.bind_apply, M.seq, M.getObj,
        List.get?_eq_getElem?, hget, M.call, htake]

/-- C16, as stated, fails: on the sample template without default destination
and with an empty name, `execute( ProducerCallback* )` raises an
`ActiveMQException`; its type is not `IllegalStateException`. -/
theorem C16_executeProducer_raises_ActiveMQException_not_IllegalState :
    CmsTemplate.executeProducer Env.quiet (some idleProducerCallback)
        { obj := CmsTemplate.sample none "", log := [] } =
      (Res.raised
        { kind := ExcKind.ActiveMQException,
          message := "No defaultDestination or defaultDestinationName specified. Check configuration of CmsTemplate.",
          marks := [("CmsTemplate.cpp", 109), ("CmsTemplate.cpp", 137), ("CmsTemplate.cpp", 219),
                    ("CmsTemplate.cpp", 357), ("CmsTemplate.cpp", 310),
                    ("CmsTemplate.cpp", 330)] },
        { obj := CmsTemplate.sample none "",
          log := [Event.poolTakeSession { connection := some 0, acknowledgeMode := 0 },
                  Event.sessionClose 0] }) ∧
    ExcKind.ActiveMQException ≠ ExcKind.IllegalStateException := by
  refine ⟨rfl, by decide⟩

/-- C16, amended: `execute( ProducerCallback* )` on a template with no default
destination object and an empty default destination name, once the pool has
handed out a session, fails with an `ActiveMQException`: `createProducer`
converts the `IllegalStateException` of the missing default destination, and
what reaches the caller is of type `ActiveMQException`; when the `close()` of
the session succeeds it carries the message of that `IllegalStateException`. -/
theorem C16_executeProducer_missing_default_destination (env : Env)
    (action : Option ProducerCallback) (s s1 : St CmsTemplate) (session : Nat)
    (hdest : s.obj.defaultDestination = none)
    (hname : s.obj.defaultDestinationName = "")
    (htake : CmsTemplate.takeSession env s = (Res.ok (some session), s1)) :
    ∃ e, (CmsTemplate.executeProducer env action s).1 = Res.raised e ∧
      e.kind = ExcKind.ActiveMQException ∧
      (env.sessionClose s1.log session = Except.ok () →
        e.message =
          "No defaultDestination or defaultDestinationName specified. Check configuration of CmsTemplate.") := by
  have hobj := takeSession_obj env s
  rw [htake] at hobj
  rcases s with ⟨t, log⟩
  rcases s1 with ⟨t1, log1⟩
  simp only at hobj hdest hname
  subst hobj
  rcases hclose : env.sessionClose log1 session with e2 | u
  · by_cases he2 : e2.isActiveMQException = true <;>
      simp [CmsTemplate.executeProducer, CmsTemplate.execute,
        CmsTemplate.ProducerSessionCallback.doInCms, CmsTemplate.createProducer,
        CmsTemplate.resolveDefaultDestination, CmsTemplate.checkDefaultDestination,
        CmsTemplate.returnSession, CmsTemplate.destroyProducer,
        M.frame, M.tryCatch, M.bind_apply, M.seq, M.inFrame, htake, M.setLocal, M.getLocal,
        M.getObj, M.byRef, M.call, hclose, M.pure_apply, M.raise, hdest, hname,
        AMQ_CATCH_RETHROW, AMQ_CATCH_EXCEPTION_CONVERT, AMQ_CATCHALL_THROW,
        Exc.isActiveMQException, Exc.isIllegalStateException, Exc.setMark, Exc.new] at he2 ⊢ <;>
      simp [he2, M.raise]
  · simp [CmsTemplate.executeProducer, CmsTemplate.execute,
      CmsTemplate.ProducerSessionCallback.doInCms, CmsTemplate.createProducer,
      CmsTemplate.resolveDefaultDestination, CmsTemplate.checkDefaultDestination,
      CmsTemplate.returnSession, CmsTemplate.destroyProducer,
      M.frame, M.tryCatch, M.bind_apply, M.seq, M.inFrame, htake, M.setLocal, M.getLocal,
      M.getObj, M.byRef, M.call, hclose, M.pure_apply, M.raise, hdest, hname,
      AMQ_CATCH_RETHROW, AMQ_CATCH_EXCEPTION_CONVERT, AMQ_CATCHALL_THROW,
      Exc.isActiveMQException, Exc.isIllegalStateException, Exc.setMark, Exc.new]

/-- Witness of the amended C16: the sample template without default
destination, in an environment where `close()` of the session fails. -/
theorem C16_executeProducer_missing_default_destination_witness :
    ∃ e, (CmsTemplate.executeProducer Env.sessionCloseFails (some idleProducerCallback)
        { obj := CmsTemplate.sample none "", log := [] }).1 = Res.raised e ∧
      e.kind = ExcKind.ActiveMQException ∧
      (Env.sessionCloseFails.sessionClose
          [Event.poolTakeSession { connection := some 0, acknowledgeMode := 0 }] 0 =
            Except.ok () →
        e.message =
          "No defaultDestination or defaultDestinationName specified. Check configuration of CmsTemplate.") :=
  C16_executeProducer_missing_default_destination Env.sessionCloseFails
    (some idleProducerCallback) { obj := CmsTemplate.sample none "", log := [] }
    { obj := CmsTemplate.sample none "",
      log := [Event.poolTakeSession { connection := some 0, acknowledgeMode := 0 }] }
    0 rfl rfl rfl


/-! ## ConsumerControl: symmetry of `equals` -/

/-- The embedded `ConsumerControl::equals` is `equalsWith` at the modelled
`ConsumerId::equals` and `BaseCommand::equals`. -/
theorem ConsumerControl_equals_eq_equalsWith (a : ConsumerControl) (value : Ptr) :
    a.equals value = ConsumerControl.equalsWith ConsumerId.equals BaseCommand.equals a value :=
  rfl

/-- C23: `ConsumerControl::equals` is symmetric.  Given that `ConsumerId::equals`
is symmetric and returns false on null, and that `BaseCommand::equals` is
symmetric, for every two `ConsumerControl` values `a` and `b` (each with
`consumerId` null or non-null, any other fields) `a.equals(b)` and
`b.equals(a)` return the same result. -/
theorem C23_equals_symmetric
    (idEquals : ConsumerId → Option DataStructure → Bool)
    (baseEquals : BaseCommand → Option DataStructure → Bool)
    (hidSymm : ∀ x y : ConsumerId,
      idEquals x (some (DataStructure.consumerId y)) =
        idEquals y (some (DataStructure.consumerId x)))
    (hidNull : ∀ x : ConsumerId, idEquals x none = false)
    (hbaseSymm : ∀ x y : ConsumerControl,
      baseEquals x.base (some (DataStructure.consumerControl y)) =
        baseEquals y.base (some (DataStructure.consumerControl x)))
    (a b : ConsumerControl) :
    ConsumerControl.equalsWith idEquals baseEquals a
        (Ptr.obj (DataStructure.consumerControl b)) =
      ConsumerControl.equalsWith idEquals baseEquals b
        (Ptr.obj (DataStructure.consumerControl a)) := by
  have hb := hbaseSymm a b
  rcases a with ⟨ab, acl, aid, apf, afl, ast, asp⟩
  rcases b with ⟨bb, bcl, bid, bpf, bfl, bst, bsp⟩
  simp only at hb
  by_cases hcl : acl = bcl
  swap
  · have hcl2 : ¬ bcl = acl := fun h => hcl h.symm
    simp [ConsumerControl.equalsWith, Ptr.deref, DataStructure.asConsumerControl, hcl, hcl2]
  by_cases hpf : apf = bpf
  swap
  · have hpf2 : ¬ bpf = apf := fun h => hpf h.symm
    cases aid <;> cases bid <;>
      simp [ConsumerControl.equalsWith, Ptr.deref, DataStructure.asConsumerControl, hcl, hpf,
        hpf2, hidNull]
  by_cases hfl : afl = bfl
  swap
  · have hfl2 : ¬ bfl = afl := fun h => hfl h.symm
    cases aid <;> cases bid <;>
      simp [ConsumerControl.equalsWith, Ptr.deref, DataStructure.asConsumerControl, hcl, hpf,
        hfl, hfl2, hidNull]
  by_cases hst : ast = bst
  swap
  · have hst2 : ¬ bst = ast := fun h => hst h.symm
    cases aid <;> cases bid <;>
      simp [ConsumerControl.equalsWith, Ptr.deref, DataStructure.asConsumerControl, hcl, hpf,
        hfl, hst, hst2, hidNull]
  by_cases hsp : asp = bsp
  swap
  · have hsp2 : ¬ bsp = asp := fun h => hsp h.symm
    cases aid <;> cases bid <;>
      simp [ConsumerControl.equalsWith, Ptr.deref, DataStructure.asConsumerControl, hcl, hpf,
        hfl, hst, hsp, hsp2, hidNull]
  subst hcl hpf hfl hst hsp
  rcases aid with _ | x <;> rcases bid with _ | y
  · simp [ConsumerControl.equalsWith, Ptr.deref, DataStructure.asConsumerControl, hb]
  · simp [ConsumerControl.equalsWith, Ptr.deref, DataStructure.asConsumerControl, hidNull]
  · simp [ConsumerControl.equalsWith, Ptr.deref, DataStructure.asConsumerControl, hidNull]
  · simp [ConsumerControl.equalsWith, Ptr.deref, DataStructure.asConsumerControl, hb,
      hidSymm x y]

/-- The comparison `a != b` does not depend on the order of its arguments. -/
theorem bne_swap {α : Type} [BEq α] [LawfulBEq α] (a b : α) : (a != b) = (b != a) := by
  by_cases h : a = b
  · subst h
    rfl
  · have h2 : ¬ b = a := fun e => h e.symm
    rw [show (a != b) = true from bne_iff_ne.mpr h,
      show (b != a) = true from bne_iff_ne.mpr h2]

/-- The comparison `a == b` does not depend on the order of its arguments. -/
theorem beq_swap {α : Type} [BEq α] [LawfulBEq α] (a b : α) : (a == b) = (b == a) := by
  by_cases h : a = b
  · subst h
    rfl
  · have h2 : ¬ b = a := fun e => h e.symm
    rw [show (a == b) = false from Bool.eq_false_iff.mpr (fun e => h (eq_of_beq e)),
      show (b == a) = false from Bool.eq_false_iff.mpr (fun e => h2 (eq_of_beq e))]

/-- Witness of C23: the modelled `ConsumerId::equals` and `BaseCommand::equals`
satisfy the three givens; `a` has a `consumerId`, `b` has none. -/
theorem C23_equals_symmetric_witness :
    ConsumerControl.equalsWith ConsumerId.equals BaseCommand.equals
        { ConsumerControl.new ⟨0, false⟩ with consumerId := some ⟨"c", 1, 2⟩ }
        (Ptr.obj (DataStructure.consumerControl (ConsumerControl.new ⟨0, false⟩))) =
      ConsumerControl.equalsWith ConsumerId.equals BaseCommand.equals
        (ConsumerControl.new ⟨0, false⟩)
        (Ptr.obj (DataStructure.consumerControl
          { ConsumerControl.new ⟨0, false⟩ with consumerId := some ⟨"c", 1, 2⟩ })) :=
  C23_equals_symmetric ConsumerId.equals BaseCommand.equals
    (by
      intro x y
      simp only [ConsumerId.equals, DataStructure.asConsumerId, BaseDataStructure.equals]
      rw [bne_swap y.connectionId, bne_swap y.sessionId, bne_swap y.value])
    (by
      intro x
      simp [ConsumerId.equals, DataStructure.asConsumerId])
    (by
      intro x y
      simp only [BaseCommand.equals, DataStructure.asCommand]
      rw [beq_swap y.base.commandId, beq_swap y.base.responseRequired])
    _ _

/-! ## ConnectionId: `copyDataStructure` -/

/-- C26: `ConnectionId::copyDataStructure( src )` raises `NullPointerException`
exactly when `src` is null or is not a `ConnectionId`, and the target's value
string is then unchanged; otherwise (`src` is a `ConnectionId`, another one or
the target itself) it raises nothing and the target's value equals `src`'s
value. -/
theorem C26_ConnectionId_copyDataStructure (this : ConnectionId) :
    (∀ src : Ptr,
      (src = Ptr.null ∨ (∃ x, src = Ptr.obj (DataStructure.consumerId x)) ∨
        (∃ x, src = Ptr.obj (DataStructure.consumerControl x)) ∨
        (∃ t, src = Ptr.obj (DataStructure.unrelated t))) →
      (∃ e, (this.copyDataStructure src).1 = Except.error e ∧
        e.kind = ExcKind.NullPointerException) ∧
      (this.copyDataStructure src).2.value = this.value) ∧
    (∀ b : ConnectionId,
      (this.copyDataStructure (Ptr.obj (DataStructure.connectionId b))).1 = Except.ok () ∧
      (this.copyDataStructure (Ptr.obj (DataStructure.connectionId b))).2.value = b.value) ∧
    ((this.copyDataStructure Ptr.self).1 = Except.ok () ∧
      (this.copyDataStructure Ptr.self).2.value = this.value) := by
  refine ⟨?_, ?_, ?_⟩
  · rintro src (rfl | ⟨x, rfl⟩ | ⟨x, rfl⟩ | ⟨t, rfl⟩) <;>
      simp [ConnectionId.copyDataStructure, Ptr.deref, DataStructure.asConnectionId, Exc.new]
  · intro b
    simp [ConnectionId.copyDataStructure, Ptr.deref, DataStructure.asConnectionId]
  · simp [ConnectionId.copyDataStructure, Ptr.deref, DataStructure.asConnectionId]

/-! ## CmsTemplate: `doSend` without session or destination -/

/-- C25: `doSend` called with a null session or a null destination returns
normally and leaves the template and the log of calls as they were: no producer
is created, the message creator is not invoked, nothing is sent, and no error
is reported. -/
theorem C25_doSend_null_is_noop (env : Env) (session dest : Option Nat)
    (messageCreator : Option MessageCreator) (s : St CmsTemplate)
    (hnull : session = none ∨ dest = none) :
    CmsTemplate.doSend env session dest messageCreator s = (Res.ok (), s) := by
  rcases hnull with rfl | rfl
  · simp [CmsTemplate.doSend, M.frame, M.tryCatch, M.pure_apply]
  · cases session <;> simp [CmsTemplate.doSend, M.frame, M.tryCatch, M.pure_apply]

/-- Witness of C25: a session but no destination, with a message creator that
would throw if it were invoked. -/
theorem C25_doSend_null_is_noop_witness :
    CmsTemplate.doSend Env.quiet (some 0) none (some throwingMessageCreator)
        { obj := CmsTemplate.sample none "", log := [] } =
      (Res.ok (), { obj := CmsTemplate.sample none "", log := [] }) :=
  C25_doSend_null_is_noop Env.quiet (some 0) none (some throwingMessageCreator)
    { obj := CmsTemplate.sample none "", log := [] } (Or.inr rfl)

/-! ## ResourceLifecycleManager: closes before deletes -/

/-- The close loop closes a prefix of the connections, in order, and all of them
when it returns. -/
theorem closeEach_prefix {σ : Type} (env : Env) (cs : List Nat) (s : St σ) :
    ∃ closed, closed <+: cs ∧
      (ResourceLifecycleManager.closeEach env cs s).2 =
        { s with log := s.log ++ closed.map Event.connectionClose } ∧
      (∀ u, (ResourceLifecycleManager.closeEach env cs s).1 = Res.ok u → closed = cs) := by
  induction cs generalizing s with
  | nil =>
    exact ⟨[], List.prefix_refl _, by simp [ResourceLifecycleManager.closeEach, M.pure_apply],
      fun _ _ => rfl⟩
  | cons c rest ih =>
    obtain ⟨closed, h1, h2, h3⟩ := ih { s with log := s.log ++ [Event.connectionClose c] }
    cases hc : env.connectionClose s.log c with
    | error e =>
      refine ⟨[c], ?_, ?_, ?_⟩
      · exact ⟨rest, rfl⟩
      · simp [ResourceLifecycleManager.closeEach, M.bind_apply, M.seq, M.call, hc]
      · simp [ResourceLifecycleManager.closeEach, M.bind_apply, M.seq, M.call, hc]
    | ok u =>
      refine ⟨c :: closed, ?_, ?_, ?_⟩
      · obtain ⟨t, ht⟩ := h1
        exact ⟨t, by simp [← ht]⟩
      · simp [ResourceLifecycleManager.closeEach, M.bind_apply, M.seq, M.call, hc]
        rw [h2]
        simp
      · intro u hu
        simp [ResourceLifecycleManager.closeEach, M.bind_apply, M.seq, M.call, hc] at hu
        simp [h3 u hu]

/-- C22: in every run of `destroy` the calls made are `close()` on a prefix of
the registered connections, in registration order, followed by the deletions;
whenever a handle of any category is deleted, every registered connection has
been closed before, and a run that returns has closed all connections and then
deleted the handles of the five vectors. -/
theorem C22_destroy_closes_before_deletes (env : Env) (s : St ResourceLifecycleManager) :
    ∃ (closed : List Nat) (dels : List (Kind × Nat)),
      (ResourceLifecycleManager.destroy env s).2.log =
        s.log ++ closed.map Event.connectionClose ++
          dels.map (fun p => Event.delete p.1 p.2) ∧
      closed <+: s.obj.connections ∧
      (dels ≠ [] → closed = s.obj.connections) ∧
      (∀ u, (ResourceLifecycleManager.destroy env s).1 = Res.ok u →
        closed = s.obj.connections ∧ dels = s.obj.sweep) := by
  obtain ⟨closed, h1, h2, h3⟩ := closeEach_prefix env s.obj.connections s
  by_cases hok : ∃ u, (ResourceLifecycleManager.closeEach env s.obj.connections s).1 = Res.ok u
  · obtain ⟨u, hu⟩ := hok
    have hclosed := h3 u hu
    have hce : ResourceLifecycleManager.closeEach env s.obj.connections s =
        (Res.ok (), { s with log := s.log ++ closed.map Event.connectionClose }) := by
      rw [← h2, ← hu]
    have hd := destroy_of_closeEach_ok env s _ hce
    refine ⟨closed, s.obj.sweep, ?_, h1, fun _ => hclosed, fun _ _ => ⟨hclosed, rfl⟩⟩
    rw [hd]
    rfl
  · have hno : ∀ u, (ResourceLifecycleManager.closeEach env s.obj.connections s).1 ≠ Res.ok u :=
      fun u hu => hok ⟨u, hu⟩
    have hd := destroy_of_closeEach_not_ok env s hno
    refine ⟨closed, [], ?_, h1, fun h => absurd rfl h, ?_⟩
    · rw [hd, h2]
      simp
    · intro u hu
      rw [hd] at hu
      exact absurd hu (hno u)

/-! ## CmsTemplate: how often `execute` closes the session -/

/-- C21, as stated, fails: the callback returns normally and the `close()`
performed on the normal path raises an `ActiveMQException`; the catch block then
calls `returnSession` again, so `close()` is invoked twice on session 0. -/
theorem C21_execute_closes_twice_when_close_raises :
    CmsTemplate.execute Env.sessionCloseRaisesActiveMQ (some returningSessionCallback)
        { obj := CmsTemplate.sample (some 9) "", log := [] } =
      (Res.raised
        { kind := ExcKind.ActiveMQException, message := "broker said no",
          marks := [("Callback.cpp", 7), ("CmsTemplate.cpp", 193)] },
        { obj := CmsTemplate.sample (some 9) "",
          log := [Event.poolTakeSession { connection := some 0, acknowledgeMode := 0 },
                  Event.user 3, Event.sessionClose 0, Event.sessionClose 0] }) ∧
    List.count (Event.sessionClose 0)
      [Event.poolTakeSession { connection := some 0, acknowledgeMode := 0 },
       Event.user 3, Event.sessionClose 0, Event.sessionClose 0] = 2 := by
  refine ⟨rfl, by decide⟩

/-- C21, amended: in a run of `execute( SessionCallback* )` with a non-null
action in which the pool handed out a session and the callback returned
normally or raised an `ActiveMQException`, the calls `execute` makes after the
callback are `close()` on that session and nothing else: exactly one `close()`
when the callback raised, or when it returned and that `close()` returns; and
exactly two when the callback returned and the `close()` performed on the
normal path raises, since the catch block then returns the session again. -/
theorem C21_execute_close_count (env : Env) (cb : SessionCallback)
    (s s1 s2 : St CmsTemplate) (session : Nat) (r : Res Unit)
    (htake : CmsTemplate.takeSession env s = (Res.ok (some session), s1))
    (hcb : cb (some session) s1 = (r, s2)) :
    ((∃ e, r = Res.raised e ∧ e.isActiveMQException = true) →
      (CmsTemplate.execute env (some cb) s).2.log =
        s2.log ++ [Event.sessionClose session]) ∧
    (r = Res.ok () → env.sessionClose s2.log session = Except.ok () →
      (CmsTemplate.execute env (some cb) s).2.log =
        s2.log ++ [Event.sessionClose session]) ∧
    (r = Res.ok () → (∃ e, env.sessionClose s2.log session = Except.error e) →
      (CmsTemplate.execute env (some cb) s).2.log =
        s2.log ++ [Event.sessionClose session, Event.sessionClose session]) := by
  rcases s with ⟨t, log⟩
  rcases s1 with ⟨t1, log1⟩
  rcases s2 with ⟨t2, log2⟩
  refine ⟨?_, ?_, ?_⟩
  · rintro ⟨e, rfl, he⟩
    rcases hclose : env.sessionClose log2 session with e2 | u <;>
    (try by_cases h2 : e2.isActiveMQException = true) <;>
    simp [CmsTemplate.execute, M.frame, M.tryCatch, M.bind_apply, M.seq, M.inFrame, htake,
      M.setLocal, M.getLocal, hcb, M.byRef, CmsTemplate.returnSession, M.call, hclose,
      M.pure_apply, AMQ_CATCH_RETHROW, AMQ_CATCHALL_THROW, M.raise, he, *]
  · rintro rfl hclose
    simp [CmsTemplate.execute, M.frame, M.tryCatch, M.bind_apply, M.seq, M.inFrame, htake,
      M.setLocal, M.getLocal, hcb, M.byRef, CmsTemplate.returnSession, M.call, hclose,
      M.pure_apply]
  · rintro rfl ⟨e1, hclose⟩
    by_cases h1 : e1.isActiveMQException = true <;>
    rcases hclose2 : env.sessionClose (log2 ++ [Event.sessionClose session]) session
      with e2 | u <;>
    (try by_cases h2 : e2.isActiveMQException = true) <;>
    simp [CmsTemplate.execute, M.frame, M.tryCatch, M.bind_apply, M.seq, M.inFrame, htake,
      M.setLocal, M.getLocal, hcb, M.byRef, CmsTemplate.returnSession, M.call, hclose,
      hclose2, M.pure_apply, AMQ_CATCH_RETHROW, AMQ_CATCHALL_THROW, M.raise, h1,
      isActiveMQException_setMark, isActiveMQException_new, *]

/-- Witness of the amended C21: the callback raises an `ActiveMQException` and
every `close()` fails; the session is closed once. -/
theorem C21_execute_close_count_witness :
    (CmsTemplate.execute Env.sessionCloseFails (some activeMQSessionCallback)
        { obj := CmsTemplate.sample (some 9) "", log := [] }).2.log =
      [Event.poolTakeSession { connection := some 0, acknowledgeMode := 0 }] ++
        [Event.sessionClose 0] :=
  (C21_execute_close_count Env.sessionCloseFails activeMQSessionCallback
    { obj := CmsTemplate.sample (some 9) "", log := [] }
    { obj := CmsTemplate.sample (some 9) "",
      log := [Event.poolTakeSession { connection := some 0, acknowledgeMode := 0 }] }
    { obj := CmsTemplate.sample (some 9) "",
      log := [Event.poolTakeSession { connection := some 0, acknowledgeMode := 0 }] }
    0 (Res.raised activeMQError) rfl rfl).1 ⟨activeMQError, rfl, rfl⟩

/-! ## CmsTemplate: the lazily created connection -/

/-- The loop of `destroySessionPools` only deletes pools. -/
theorem destroySessionPoolsLoop_log (ixs : List Nat) (s : St CmsTemplate) :
    ∃ dels : List SessionPool,
      (CmsTemplate.destroySessionPoolsLoop ixs s).2.log =
        s.log ++ dels.map Event.deleteSessionPool := by
  induction ixs generalizing s with
  | nil => exact ⟨[], by simp [CmsTemplate.destroySessionPoolsLoop, M.pure_apply]⟩
  | cons ix rest ih =>
    rcases hget : s.obj.sessionPools[ix]? with _ | (_ | pool)
    · obtain ⟨dels, h⟩ := ih s
      exact ⟨dels, by
        simpa [CmsTemplate.destroySessionPoolsLoop, M.bind_apply, M.seq, M.getObj,
          List.get?_eq_getElem?, hget, M.pure_apply] using h⟩
    · obtain ⟨dels, h⟩ := ih s
      exact ⟨dels, by
        simpa [CmsTemplate.destroySessionPoolsLoop, M.bind_apply, M.seq, M.getObj,
          List.get?_eq_getElem?, hget, M.pure_apply] using h⟩
    · obtain ⟨dels, h⟩ :=
        ih { obj := { s.obj with sessionPools := s.obj.sessionPools.set ix none },
             log := s.log ++ [Event.deleteSessionPool pool] }
      exact ⟨pool :: dels, by
        simpa [CmsTemplate.destroySessionPoolsLoop, M.bind_apply, M.seq, M.getObj,
          List.get?_eq_getElem?, hget, M.pure_apply, M.emit, M.modifyObj] using h⟩

/-- The loop of `createSessionPools` creates one pool per index, in order, on
the template's connection. -/
theorem createSessionPoolsLoop_log (ixs : List Nat) (s : St CmsTemplate) :
    (CmsTemplate.createSessionPoolsLoop ixs s).2.log =
      s.log ++ ixs.map
        (fun ix => Event.newSessionPool { connection := s.obj.connection,
                                          acknowledgeMode := ix }) := by
  induction ixs generalizing s with
  | nil => simp [CmsTemplate.createSessionPoolsLoop, M.pure_apply]
  | cons ix0 rest ih =>
    have h := ih
      { obj := { s.obj with
                 sessionPools := s.obj.sessionPools.set ix0
                   (some { connection := s.obj.connection, acknowledgeMode := ix0 }) },
        log := s.log ++
          [Event.newSessionPool { connection := s.obj.connection, acknowledgeMode := ix0 }] }
    simpa [CmsTemplate.createSessionPoolsLoop, M.bind_apply, M.seq, M.getObj, M.emit,
      M.modifyObj] using h

/-- The function `createSessionPools` on an array of `NUM_SESSION_POOLS` slots:
it returns, keeps the connection, deletes old pools and then creates one pool
per acknowledge mode. -/
theorem createSessionPools_spec (env : Env) (s : St CmsTemplate)
    (hslots : s.obj.sessionPools.length = env.NUM_SESSION_POOLS) :
    ∃ dels : List SessionPool,
      (CmsTemplate.createSessionPools env s).1 = Res.ok () ∧
      (CmsTemplate.createSessionPools env s).2.obj.connection = s.obj.connection ∧
      (CmsTemplate.createSessionPools env s).2.log =
        s.log ++ dels.map Event.deleteSessionPool ++
          (List.range env.NUM_SESSION_POOLS).map
            (fun ix => Event.newSessionPool { connection := s.obj.connection,
                                              acknowledgeMode := ix }) ∧
      (∀ ix, ix < env.NUM_SESSION_POOLS →
        (CmsTemplate.createSessionPools env s).2.obj.sessionPools.get? ix =
          some (some { connection := s.obj.connection, acknowledgeMode := ix })) := by
  obtain ⟨d1, d2, d3⟩ :=
    destroySessionPoolsLoop_keeps (List.range env.NUM_SESSION_POOLS) s
  obtain ⟨dels, d4⟩ := destroySessionPoolsLoop_log (List.range env.NUM_SESSION_POOLS) s
  obtain ⟨c1, c2, _, c4, _⟩ :=
    createSessionPoolsLoop_slots (List.range env.NUM_SESSION_POOLS)
      (CmsTemplate.destroySessionPoolsLoop (List.range env.NUM_SESSION_POOLS) s).2
  have c5 := createSessionPoolsLoop_log (List.range env.NUM_SESSION_POOLS)
      (CmsTemplate.destroySessionPoolsLoop (List.range env.NUM_SESSION_POOLS) s).2
  have hrun : CmsTemplate.createSessionPools env s =
      CmsTemplate.createSessionPoolsLoop (List.range env.NUM_SESSION_POOLS)
        (CmsTemplate.destroySessionPoolsLoop (List.range env.NUM_SESSION_POOLS) s).2 := by
    simp only [CmsTemplate.createSessionPools, CmsTemplate.destroySessionPools, M.bind_apply,
      M.seq]
    rcases hd : CmsTemplate.destroySessionPoolsLoop (List.range env.NUM_SESSION_POOLS) s
      with ⟨r, s1⟩
    rw [hd] at d1
    simp only at d1
    subst d1
    rfl
  refine ⟨dels, by rw [hrun]; exact c1, by rw [hrun, c2, d2], ?_, ?_⟩
  · rw [hrun, c5, d4, d2]
  · intro ix hix
    rw [hrun, c4 ix (List.mem_range.mpr hix) (by rw [d3, hslots]; exact hix), d2]

/-- What `getConnection` does deliver.  On a template that holds no
connection (its array having `NUM_SESSION_POOLS` slots), a call in which
`createConnection` returns connection `c` and `start()` succeeds makes exactly
one `createConnection` call, one `start()` on `c`, deletes the pools the array
held and creates one pool per acknowledge mode on `c`, stores `c` and returns
it; and on every template that holds a connection `c` a call returns `c` and
leaves template and log as they are, so later calls create and start nothing
and do not re-create the pools. -/
theorem getConnection_lazy_idempotent (env : Env) :
    (∀ (s : St CmsTemplate) (c : Nat),
      s.obj.connection = none →
      s.obj.sessionPools.length = env.NUM_SESSION_POOLS →
      env.createConnection s.log = Except.ok (some c) →
      env.connectionStart (s.log ++ [Event.createConnection]) c = Except.ok () →
      ∃ dels : List SessionPool,
        (CmsTemplate.getConnection env s).1 = Res.ok (some c) ∧
        (CmsTemplate.getConnection env s).2.obj.connection = some c ∧
        (CmsTemplate.getConnection env s).2.log =
          s.log ++ [Event.createConnection, Event.connectionStart c] ++
            dels.map Event.deleteSessionPool ++
            (List.range env.NUM_SESSION_POOLS).map
              (fun ix => Event.newSessionPool { connection := some c,
                                                acknowledgeMode := ix }) ∧
        (∀ ix, ix < env.NUM_SESSION_POOLS →
          (CmsTemplate.getConnection env s).2.obj.sessionPools.get? ix =
            some (some { connection := some c, acknowledgeMode := ix })) ∧
        CmsTemplate.getConnection env (CmsTemplate.getConnection env s).2 =
          (Res.ok (some c), (CmsTemplate.getConnection env s).2)) ∧
    (∀ (s : St CmsTemplate) (c : Nat),
      s.obj.connection = some c →
      CmsTemplate.getConnection env s = (Res.ok (some c), s)) := by
  have hlater : ∀ (s : St CmsTemplate) (c : Nat),
      s.obj.connection = some c →
      CmsTemplate.getConnection env s = (Res.ok (some c), s) := by
    intro s c hc
    simp [CmsTemplate.getConnection, M.tryCatch, M.bind_apply, M.seq, M.getObj, M.pure_apply,
      hc]
  refine ⟨?_, hlater⟩
  intro s c hnone hslots hcreate hstart
  rcases s with ⟨t, log⟩
  simp only at hnone hslots hcreate hstart
  obtain ⟨dels, p1, p2, p3, p4⟩ := createSessionPools_spec env
    { obj := { t with connection := some c },
      log := log ++ [Event.createConnection, Event.connectionStart c] } hslots
  have hrun : CmsTemplate.getConnection env { obj := t, log := log } =
      (Res.ok (some c),
        (CmsTemplate.createSessionPools env
          { obj := { t with connection := some c },
            log := log ++ [Event.createConnection, Event.connectionStart c] }).2) := by
    rcases hp : CmsTemplate.createSessionPools env
        { obj := { t with connection := some c },
          log := log ++ [Event.createConnection, Event.connectionStart c] } with ⟨r, s1⟩
    rw [hp] at p1 p2
    simp only at p1 p2
    subst p1
    simp [CmsTemplate.getConnection, M.tryCatch, M.bind_apply, M.seq, M.getObj, M.pure_apply,
      hnone, M.call, hcreate, M.modifyObj, hstart, hp, p2]
  refine ⟨dels, ?_, ?_, ?_, ?_, ?_⟩
  · rw [hrun]
  · rw [hrun]
    exact p2
  · rw [hrun]
    simpa using p3
  · intro ix hix
    rw [hrun]
    exact p4 ix hix
  · rw [hrun]
    exact hlater _ c p2

/-- C24: evaluation of `getConnection` at the failing input.  On a template
without connection the first call creates connection 0 and stores it, then
`start()` raises, so the call fails before any pool is created.  The second
call is the first successful one: it returns connection 0 and makes no call at
all, so it creates no connection, starts none and creates no session pool; the
template is left with a connection that was never started and with empty pool
slots, on which `takeSession` leaves defined behaviour. -/
theorem C24_getConnection_after_failed_start :
    CmsTemplate.getConnection Env.startFails
        { obj := CmsTemplate.unconnected, log := [] } =
      (Res.raised
        { kind := ExcKind.ActiveMQException, message := "broker said no",
          marks := [("Callback.cpp", 7), ("CmsTemplate.cpp", 162)] },
        { obj := { CmsTemplate.unconnected with connection := some 0 },
          log := [Event.createConnection, Event.connectionStart 0] }) ∧
    CmsTemplate.getConnection Env.startFails
        { obj := { CmsTemplate.unconnected with connection := some 0 },
          log := [Event.createConnection, Event.connectionStart 0] } =
      (Res.ok (some 0),
        { obj := { CmsTemplate.unconnected with connection := some 0 },
          log := [Event.createConnection, Event.connectionStart 0] }) ∧
    ({ CmsTemplate.unconnected with connection := some 0 } : CmsTemplate).sessionPools =
      [none, none, none, none] ∧
    (CmsTemplate.takeSession Env.startFails
        { obj := { CmsTemplate.unconnected with connection := some 0 },
          log := [Event.createConnection, Event.connectionStart 0] }).1 = Res.fault := by
  refine ⟨rfl, rfl, rfl, rfl⟩

end activemq
